import Mathlib

set_option maxRecDepth 8192

/-!
# Verification of the esobox Brainfuck interpreter

Shallow embedding of `src/brainfuck/mod.rs`: the block compiler
(`into_basic_blocks`) and the tape machine (`run`), together with proofs of
the specified properties.  Machine integers are modelled as `Nat` with
explicit reductions modulo `2^64` (for `usize` wrapping) and modulo `256`
(for `u8` wrapping); I/O streams are modelled as pure byte lists; the
potentially diverging execution loop takes explicit fuel.
-/

namespace Esobox

/-- The six leaf instructions (`Cmd` enum in the source). -/
inductive Cmd where
  | inc
  | dec
  | left
  | right
  | getc
  | putc
deriving DecidableEq

/-- A basic block: straight-line instructions plus optional branch-if-zero
(`jz`) and branch-if-nonzero (`jnz`) successor indices. -/
structure BasicBlock where
  instrs : List Cmd
  jz : Option Nat
  jnz : Option Nat
deriving DecidableEq

/-- The `Error` enum of the source: unmatched-bracket syntax errors and I/O
errors.  (I/O errors cannot arise in the pure model, where streams are byte
lists, but the constructor is kept to embed the type faithfully.) -/
inductive Error where
  | syntaxError (c : Char)
  | ioError
deriving DecidableEq

/-- `const MEMORY_SIZE: usize = 65536`. -/
def MEMORY_SIZE : Nat := 65536

/-- The modulus of Rust's 64-bit `usize` arithmetic, `2^64`. -/
def USIZE : Nat := 18446744073709551616

/-- In-place update `basic_blocks[popped].jz = Some t` of the source,
as a structural list update. -/
def setJz : List BasicBlock → Nat → Nat → List BasicBlock
  | [], _, _ => []
  | b :: bs, 0, t => { b with jz := some t } :: bs
  | b :: bs, n+1, t => b :: setJz bs n t

/-- The compiler state of `into_basic_blocks`: the pending stack of block
ids pushed at each `[` (list head = stack top, mirroring `Vec` push/pop at
the end), the sealed blocks so far, the in-progress block, and the id of
the block currently being assembled. -/
structure CompState where
  bbnoStack : List Nat
  basicBlocks : List BasicBlock
  curBasicBlock : List Cmd
  curBbId : Nat
deriving DecidableEq

/-- One character of the compilation scan (the `match c` in the source's
`for c in source.chars()` loop). -/
def compileStep (st : CompState) (c : Char) : Except Error CompState :=
  match c with
  | '+' => .ok { st with curBasicBlock := st.curBasicBlock ++ [Cmd.inc] }
  | '-' => .ok { st with curBasicBlock := st.curBasicBlock ++ [Cmd.dec] }
  | '<' => .ok { st with curBasicBlock := st.curBasicBlock ++ [Cmd.left] }
  | '>' => .ok { st with curBasicBlock := st.curBasicBlock ++ [Cmd.right] }
  | ',' => .ok { st with curBasicBlock := st.curBasicBlock ++ [Cmd.getc] }
  | '.' => .ok { st with curBasicBlock := st.curBasicBlock ++ [Cmd.putc] }
  | '[' =>
      -- seal current block: jnz is always the next block; jz patched at `]`
      .ok { bbnoStack := st.curBbId :: st.bbnoStack
            basicBlocks := st.basicBlocks ++
              [{ instrs := st.curBasicBlock, jz := none, jnz := some (st.curBbId + 1) }]
            curBasicBlock := []
            curBbId := st.curBbId + 1 }
  | ']' =>
      match st.bbnoStack with
      | [] => .error (Error.syntaxError ']')
      | popped :: rest =>
          -- seal current block: jz = next block, jnz = popped + 1;
          -- back-patch jz of the popped block to the next block
          .ok { bbnoStack := rest
                basicBlocks :=
                  setJz (st.basicBlocks ++
                    [{ instrs := st.curBasicBlock, jz := some (st.curBbId + 1),
                       jnz := some (popped + 1) }]) popped (st.curBbId + 1)
                curBasicBlock := []
                curBbId := st.curBbId + 1 }
  | _ => .ok st

/-- The block compiler `into_basic_blocks`: scan the source, then fail with
SyntaxError('[') if the pending stack is non-empty, otherwise append the
final in-progress block as a terminal block. -/
def into_basic_blocks (source : String) : Except Error (List BasicBlock) :=
  match source.data.foldlM compileStep
      { bbnoStack := [], basicBlocks := [], curBasicBlock := [], curBbId := 0 } with
  | .error e => .error e
  | .ok st =>
      if st.bbnoStack.isEmpty then
        .ok (st.basicBlocks ++ [{ instrs := st.curBasicBlock, jz := none, jnz := none }])
      else
        .error (Error.syntaxError '[')

/-- The tape machine state: the memory tape (a list of 65536 byte cells),
the cursor `ptr`, and the input/output byte streams. -/
structure MachState where
  memory : List Nat
  ptr : Nat
  input : List Nat
  output : List Nat
deriving DecidableEq

/-- The source's `getc` helper: `fill_buf` exposes the next byte if any,
`consume(1)` removes it; at end of input it returns `none`. -/
def getc : List Nat → Option Nat × List Nat
  | [] => (none, [])
  | b :: rest => (some b, rest)

/-- One leaf instruction of the execution loop.  Cells use 8-bit wrapping
arithmetic (`wrapping_add(1)` is `(v + 1) % 256`, `wrapping_sub(1)` is
`(v + 255) % 256` on a byte); `Left` is `ptr.wrapping_sub(1) % MEMORY_SIZE`
(64-bit wrap, then modulo the tape length) and `Right` is
`(ptr + 1) % MEMORY_SIZE`. -/
def execCmd (st : MachState) (c : Cmd) : MachState :=
  match c with
  | .inc => { st with memory := st.memory.set st.ptr ((st.memory.getD st.ptr 0 + 1) % 256) }
  | .dec => { st with memory := st.memory.set st.ptr ((st.memory.getD st.ptr 0 + 255) % 256) }
  | .left => { st with ptr := (st.ptr + (USIZE - 1)) % USIZE % MEMORY_SIZE }
  | .right => { st with ptr := (st.ptr + 1) % MEMORY_SIZE }
  | .getc =>
      match getc st.input with
      | (some b, rest) => { st with memory := st.memory.set st.ptr b, input := rest }
      | (none, rest) => { st with input := rest }
  | .putc => { st with output := st.output ++ [st.memory.getD st.ptr 0] }

/-- Execute the straight-line instructions of one basic block. -/
def execBlock (st : MachState) (instrs : List Cmd) : MachState :=
  instrs.foldl execCmd st

/-- The block fetch `basic_blocks[bb_no]` of the loop (total, with an inert
terminal block as out-of-bounds default; in-boundedness is proved below). -/
def fetch (blocks : List BasicBlock) (bb_no : Nat) : BasicBlock :=
  blocks.getD bb_no { instrs := [], jz := none, jnz := none }

/-- The control transfer decision at the end of a block: branch on whether
the current cell is zero. -/
def branchTarget (bb : BasicBlock) (st : MachState) : Option Nat :=
  if st.memory.getD st.ptr 0 = 0 then bb.jz else bb.jnz

/-- The fetch/execute loop of `run`, with explicit fuel bounding the number
of block iterations; `none` means the fuel ran out before the program
reached a terminal branch. -/
def runLoop (blocks : List BasicBlock) : Nat → Nat → MachState → Option MachState
  | 0, _, _ => none
  | fuel+1, bb_no, st =>
      let st1 := execBlock st (fetch blocks bb_no).instrs
      match branchTarget (fetch blocks bb_no) st1 with
      | some next_bb => runLoop blocks fuel next_bb st1
      | none => some st1

/-- The interpreter entry point `run`: compile, then execute from block 0
on a zeroed tape with the cursor at 0. -/
def run (source : String) (input : List Nat) (fuel : Nat) :
    Except Error (Option MachState) :=
  match into_basic_blocks source with
  | .error e => .error e
  | .ok basic_blocks =>
      .ok (runLoop basic_blocks fuel 0
        { memory := List.replicate MEMORY_SIZE 0, ptr := 0, input := input, output := [] })

/-!
## An arithmetic tape machine

For concrete executions the list tape is replaced by an equivalent machine
that stores cell 0 as a bare number and cells `1 .. 65535` as the base-256
digits of a single natural number in reversed order (cell `i` is digit
`65535 - i`).  It is proved below to simulate the list machine step for
step, and keeps the numbers involved small for programs that work near
either end of the tape, so that concrete runs reduce quickly by kernel
arithmetic. -/

/-- Read digit `p` of a base-256 encoded number. -/
def bigGet (m p : Nat) : Nat := m / 256 ^ p % 256

/-- Overwrite digit `p` of a base-256 encoded number with `v`. -/
def bigSet (m p v : Nat) : Nat :=
  m % 256 ^ p + v * 256 ^ p + m / 256 ^ (p + 1) * 256 ^ (p + 1)

/-- Reversed base-256 encoding of a cell list: the head becomes the most
significant digit, the last element digit 0. -/
def encRev : List Nat → Nat
  | [] => 0
  | c :: cs => c * 256 ^ cs.length + encRev cs

/-- Machine state of the arithmetic machine: cell 0 in `c0`, cells
`1 .. 65535` reversed-encoded in `rest`. -/
structure RevState where
  c0 : Nat
  rest : Nat
  ptr : Nat
  input : List Nat
  output : List Nat
deriving DecidableEq

/-- Read the current cell on the arithmetic machine. -/
def revGet (st : RevState) : Nat :=
  if st.ptr = 0 then st.c0 else bigGet st.rest (MEMORY_SIZE - 1 - st.ptr)

/-- Overwrite the current cell on the arithmetic machine. -/
def revSet (st : RevState) (v : Nat) : RevState :=
  if st.ptr = 0 then { st with c0 := v }
  else { st with rest := bigSet st.rest (MEMORY_SIZE - 1 - st.ptr) v }

/-- One leaf instruction on the arithmetic machine; each case mirrors
`execCmd` with list reads/writes replaced by digit reads/writes. -/
def revExecCmd (st : RevState) (c : Cmd) : RevState :=
  match c with
  | .inc => revSet st ((revGet st + 1) % 256)
  | .dec => revSet st ((revGet st + 255) % 256)
  | .left => { st with ptr := (st.ptr + (USIZE - 1)) % USIZE % MEMORY_SIZE }
  | .right => { st with ptr := (st.ptr + 1) % MEMORY_SIZE }
  | .getc =>
      match getc st.input with
      | (some b, rest) => revSet { st with input := rest } b
      | (none, rest) => { st with input := rest }
  | .putc => { st with output := st.output ++ [revGet st] }

/-- Straight-line block execution on the arithmetic machine. -/
def revExecBlock (st : RevState) (instrs : List Cmd) : RevState :=
  instrs.foldl revExecCmd st

/-- The fetch/execute loop on the arithmetic machine. -/
def revRunLoop (blocks : List BasicBlock) : Nat → Nat → RevState → Option RevState
  | 0, _, _ => none
  | fuel+1, bb_no, st =>
      let st1 := revExecBlock st (fetch blocks bb_no).instrs
      match (if revGet st1 = 0 then (fetch blocks bb_no).jz else (fetch blocks bb_no).jnz) with
      | some next_bb => revRunLoop blocks fuel next_bb st1
      | none => some st1

deriving instance DecidableEq for Except

/-- One fetch/execute iteration of the arithmetic machine:
`.ok (next_bb, st1)` to continue, `.error st1` when the applicable branch
target is absent (the program halts). -/
def revRun1 (blocks : List BasicBlock) (bb_no : Nat) (st : RevState) :
    Except RevState (Nat × RevState) :=
  let st1 := revExecBlock st (fetch blocks bb_no).instrs
  match (if revGet st1 = 0 then (fetch blocks bb_no).jz else (fetch blocks bb_no).jnz) with
  | some next_bb => .ok (next_bb, st1)
  | none => .error st1

/-- Exactly `n` iterations of the arithmetic machine (or fewer when the
program halts), exposing the intermediate configuration. -/
def revRunN (blocks : List BasicBlock) : Nat → Nat → RevState → Except RevState (Nat × RevState)
  | 0, bb_no, st => .ok (bb_no, st)
  | n+1, bb_no, st =>
      match revRun1 blocks bb_no st with
      | .ok (next_bb, st1) => revRunN blocks n next_bb st1
      | .error st1 => .error st1

/-- The simulation relation between the arithmetic machine and the list
machine: same cursor and streams, cell 0 in `c0`, the remaining cells
reversed-encoded in `rest`, with the tape well-formed (full length, byte
cells) and the unread input consisting of bytes. -/
def RepRev (b : RevState) (st : MachState) : Prop :=
  st.memory.length = MEMORY_SIZE ∧
  st.ptr < MEMORY_SIZE ∧
  (∀ v ∈ st.memory, v < 256) ∧
  (∀ v ∈ st.input, v < 256) ∧
  b.c0 = st.memory.getD 0 0 ∧
  b.rest = encRev st.memory.tail ∧
  b.ptr = st.ptr ∧
  b.input = st.input ∧
  b.output = st.output

/-!
## Spec-side definitions

The bracket-nesting scan below formalises the spec's notion of well-formed
bracket nesting (§3 invariant (ii), §8), for comparison with the compiler's
behaviour. -/

/-- Spec-side bracket scan: `scanBrackets cs d` walks `cs` keeping the
current nesting depth `d`; it returns `none` when a `]` occurs at depth 0
(a close with no preceding unmatched open) and otherwise the final depth. -/
def scanBrackets : List Char → Nat → Option Nat
  | [], d => some d
  | c :: cs, d =>
      if c = '[' then scanBrackets cs (d + 1)
      else if c = ']' then
        (if d = 0 then none else scanBrackets cs (d - 1))
      else scanBrackets cs d

/-!
## The bounds-checked variant (modelled from the spec)

The repository's second historical variant (30000 cells, bounds-checked
addressing, PointerOutOfBounds) described in spec §4.2/§7/§9 is not among
the sources under verification, which contain only the wraparound variant;
it is modelled here from the spec's words. -/

/-- Modelled from the spec: the exhaustive three-kind failure taxonomy of
§7 — SyntaxError(bracket), PointerOutOfBounds(direction), IoError — whose
PointerOutOfBounds member belongs to the bounds-checked variant missing
from the given sources. -/
inductive SpecError where
  | syntaxError (c : Char)
  | pointerOutOfBounds (c : Char)
  | ioError
deriving DecidableEq

/-- Modelled from the spec: under the bounds-checked tape policy a MoveLeft
at cursor 0 fails with PointerOutOfBounds naming the offending direction
character; otherwise the cursor moves one position left without wraparound. -/
def moveLeftChecked (ptr : Nat) : Except SpecError Nat :=
  if ptr = 0 then .error (SpecError.pointerOutOfBounds '<') else .ok (ptr - 1)

/-- Modelled from the spec: under the bounds-checked tape policy a MoveRight
past the last valid index `tapeLength - 1` fails with PointerOutOfBounds
naming the offending direction character; otherwise the cursor moves one
position right without wraparound. -/
def moveRightChecked (tapeLength ptr : Nat) : Except SpecError Nat :=
  if ptr + 1 < tapeLength then .ok (ptr + 1)
  else .error (SpecError.pointerOutOfBounds '>')

/-!
## Invariants of compilation and execution -/

/-- Both branch targets of a block are at most `n`. -/
def TargetsLe (bb : BasicBlock) (n : Nat) : Prop :=
  (∀ t ∈ bb.jz, t ≤ n) ∧ (∀ t ∈ bb.jnz, t ≤ n)

/-- The compiler-state invariant: the current block id counts the sealed
blocks, all branch targets written so far are at most the current id, and
all pending stack entries are below it. -/
def CompInv (st : CompState) : Prop :=
  st.curBbId = st.basicBlocks.length ∧
  (∀ bb ∈ st.basicBlocks, TargetsLe bb st.curBbId) ∧
  (∀ p ∈ st.bbnoStack, p < st.curBbId)

/-- The configurations (block index, machine state) the execution loop can
reach on a given program: the initial configuration, and one block-step
from a reachable configuration along a present branch target. -/
inductive Reaches (blocks : List BasicBlock) : Nat → MachState → Prop where
  | init (input : List Nat) :
      Reaches blocks 0
        { memory := List.replicate MEMORY_SIZE 0, ptr := 0, input := input, output := [] }
  | step (bb_no : Nat) (st : MachState) (next_bb : Nat) :
      Reaches blocks bb_no st →
      branchTarget (fetch blocks bb_no) (execBlock st (fetch blocks bb_no).instrs) =
        some next_bb →
      Reaches blocks next_bb (execBlock st (fetch blocks bb_no).instrs)

/-- The test program of `test_printer_1` (and spec §8): a golfed printer of
the word brainfuck. -/
def progC8 : String := "+[[-<]-[->]<-]<.<<<<.>>>>-.<<-.<.>>.<<<+++.>>>---.<++."

/-- The basic blocks `into_basic_blocks` produces for `progC8`. -/
def blocksC8 : List BasicBlock :=
  [ { instrs := [.inc], jz := some 6, jnz := some 1 },
    { instrs := [], jz := some 3, jnz := some 2 },
    { instrs := [.dec, .left], jz := some 3, jnz := some 2 },
    { instrs := [.dec], jz := some 5, jnz := some 4 },
    { instrs := [.dec, .right], jz := some 5, jnz := some 4 },
    { instrs := [.left, .dec], jz := some 6, jnz := some 1 },
    { instrs := [.left, .putc, .left, .left, .left, .left, .putc, .right, .right, .right,
        .right, .dec, .putc, .left, .left, .dec, .putc, .left, .putc, .right, .right,
        .putc, .left, .left, .left, .inc, .inc, .inc, .putc, .right, .right, .right,
        .dec, .dec, .dec, .putc, .left, .inc, .inc, .putc], jz := none, jnz := none } ]

/-- The bytes of the word brainfuck. -/
def brainfuckBytes : List Nat := [98, 114, 97, 105, 110, 102, 117, 99, 107]

/-!
## List helper lemmas -/

theorem getD_set_self : ∀ (l : List Nat) (p v : Nat), p < l.length →
    (l.set p v).getD p 0 = v
  | _ :: _, 0, _, _ => rfl
  | _ :: tl, p+1, v, h => getD_set_self tl p v (Nat.lt_of_succ_lt_succ h)

theorem set_getD_self : ∀ (l : List Nat) (p : Nat), p < l.length →
    l.set p (l.getD p 0) = l
  | _ :: _, 0, _ => rfl
  | a :: tl, p+1, h => by
      simpa using congrArg (a :: ·) (set_getD_self tl p (Nat.lt_of_succ_lt_succ h))

theorem mem_set_of : ∀ (l : List Nat) (p v x : Nat), x ∈ l.set p v → x ∈ l ∨ x = v
  | [], _, _, _, hx => Or.inl hx
  | _ :: _, 0, _, x, hx => by
      rcases List.mem_cons.mp hx with h | h
      · exact Or.inr h
      · exact Or.inl (List.mem_cons_of_mem _ h)
  | a :: tl, p+1, v, x, hx => by
      rcases List.mem_cons.mp hx with h | h
      · exact Or.inl (h ▸ List.mem_cons_self a tl)
      · rcases mem_set_of tl p v x h with h2 | h2
        · exact Or.inl (List.mem_cons_of_mem _ h2)
        · exact Or.inr h2

theorem tail_set_succ (l : List Nat) (p v : Nat) : (l.set (p+1) v).tail = l.tail.set p v := by
  cases l <;> rfl

theorem tail_set_zero (l : List Nat) (v : Nat) : (l.set 0 v).tail = l.tail := by
  cases l <;> rfl

theorem getD_zero_set_succ (l : List Nat) (p v : Nat) :
    (l.set (p+1) v).getD 0 0 = l.getD 0 0 := by
  cases l <;> rfl

theorem getD_cons_of_pos (a : Nat) (l : List Nat) (p : Nat) (h : 0 < p) :
    (a :: l).getD p 0 = l.getD (p - 1) 0 := by
  cases p with
  | zero => exact absurd h (Nat.lt_irrefl 0)
  | succ q => simp

/-!
## Digit arithmetic of the reversed encoding -/

theorem encRev_lt : ∀ (l : List Nat), (∀ v ∈ l, v < 256) → encRev l < 256 ^ l.length
  | [], _ => Nat.one_pos
  | c :: cs, h => by
      have hc : c < 256 := h c (List.mem_cons_self c cs)
      have he : encRev cs < 256 ^ cs.length :=
        encRev_lt cs (fun v hv => h v (List.mem_cons_of_mem c hv))
      have : c * 256 ^ cs.length + encRev cs < (c + 1) * 256 ^ cs.length := by
        calc c * 256 ^ cs.length + encRev cs
            < c * 256 ^ cs.length + 256 ^ cs.length := Nat.add_lt_add_left he _
          _ = (c + 1) * 256 ^ cs.length := by ring
      calc encRev (c :: cs) = c * 256 ^ cs.length + encRev cs := rfl
        _ < (c + 1) * 256 ^ cs.length := this
        _ ≤ 256 * 256 ^ cs.length := Nat.mul_le_mul_right _ hc
        _ = 256 ^ (c :: cs).length := by
            simp [List.length_cons, pow_succ]; ring

theorem encRev_getD : ∀ (l : List Nat) (p : Nat), (∀ v ∈ l, v < 256) → p < l.length →
    bigGet (encRev l) (l.length - 1 - p) = l.getD p 0
  | c :: cs, 0, h, _ => by
      have hc : c < 256 := h c (List.mem_cons_self c cs)
      have he : encRev cs < 256 ^ cs.length :=
        encRev_lt cs (fun v hv => h v (List.mem_cons_of_mem c hv))
      have hidx : (c :: cs).length - 1 - 0 = cs.length := by simp
      rw [hidx]
      show (c * 256 ^ cs.length + encRev cs) / 256 ^ cs.length % 256 = (c :: cs).getD 0 0
      rw [Nat.mul_comm c (256 ^ cs.length),
        Nat.mul_add_div (Nat.pos_pow_of_pos cs.length (by norm_num)),
        Nat.div_eq_of_lt he, Nat.add_zero, Nat.mod_eq_of_lt hc]
      rfl
  | c :: cs, q+1, h, hp => by
      have hq : q < cs.length := Nat.lt_of_succ_lt_succ hp
      obtain ⟨k, hk⟩ := Nat.exists_eq_add_of_lt hq
      have he' : ∀ v ∈ cs, v < 256 := fun v hv => h v (List.mem_cons_of_mem c hv)
      have hidx : (c :: cs).length - 1 - (q + 1) = cs.length - 1 - q := by
        simp [List.length_cons]; omega
      rw [hidx]
      have hj : cs.length - 1 - q = k := by omega
      have hpow : (256:Nat) ^ cs.length = 256 ^ k * (256 ^ (q + 1)) := by
        rw [← pow_add]; congr 1; omega
      show (c * 256 ^ cs.length + encRev cs) / 256 ^ (cs.length - 1 - q) % 256
          = (c :: cs).getD (q+1) 0
      rw [hj, hpow, show c * (256 ^ k * 256 ^ (q+1)) = 256 ^ k * (c * 256 ^ (q+1)) by ring,
        Nat.mul_add_div (Nat.pos_pow_of_pos k (by norm_num))]
      have : (c * 256 ^ (q+1) + encRev cs / 256 ^ k) % 256 = encRev cs / 256 ^ k % 256 := by
        rw [show c * 256 ^ (q+1) = c * 256 ^ q * 256 by ring]
        exact Nat.mul_add_mod' _ _ _
      rw [this]
      have := encRev_getD cs q he' hq
      rw [hj] at this
      simpa [bigGet] using this

theorem encRev_cons (c : Nat) (cs : List Nat) :
    encRev (c :: cs) = c * 256 ^ cs.length + encRev cs := rfl

theorem encRev_set : ∀ (l : List Nat) (p v : Nat), (∀ x ∈ l, x < 256) → p < l.length →
    encRev (l.set p v) = bigSet (encRev l) (l.length - 1 - p) v
  | c :: cs, 0, v, h, _ => by
      have hl : encRev (c :: cs) < 256 ^ (c :: cs).length := encRev_lt _ h
      have he : encRev cs < 256 ^ cs.length :=
        encRev_lt cs (fun x hx => h x (List.mem_cons_of_mem c hx))
      have hlt : c * 256 ^ cs.length + encRev cs < 256 ^ (cs.length + 1) := by
        rw [← encRev_cons]; simpa using hl
      have hidx : (c :: cs).length - 1 - 0 = cs.length := by simp
      rw [hidx]
      show encRev (v :: cs) = bigSet (c * 256 ^ cs.length + encRev cs) cs.length v
      rw [encRev_cons]
      simp only [bigSet]
      rw [Nat.mul_add_mod' c (256 ^ cs.length) (encRev cs), Nat.mod_eq_of_lt he,
        Nat.div_eq_of_lt hlt, Nat.zero_mul, Nat.add_zero,
        Nat.add_comm (encRev cs) (v * 256 ^ cs.length)]
  | c :: cs, q+1, v, h, hp => by
      have hq : q < cs.length := Nat.lt_of_succ_lt_succ hp
      obtain ⟨k, hk⟩ := Nat.exists_eq_add_of_lt hq
      have he2 : ∀ x ∈ cs, x < 256 := fun x hx => h x (List.mem_cons_of_mem c hx)
      have hidx : (c :: cs).length - 1 - (q + 1) = cs.length - 1 - q := by
        simp [List.length_cons]; omega
      have hj : cs.length - 1 - q = k := by omega
      have ih := encRev_set cs q v he2 hq
      rw [hj] at ih
      have hpow : (256:Nat) ^ cs.length = 256 ^ k * (256 ^ (q + 1)) := by
        rw [← pow_add]; congr 1; omega
      have hpow1 : (256:Nat) ^ cs.length = 256 ^ (k + 1) * (256 ^ q) := by
        rw [← pow_add]; congr 1; omega
      rw [hidx, hj]
      have hmod : (c * 256 ^ cs.length + encRev cs) % 256 ^ k = encRev cs % 256 ^ k := by
        rw [show c * 256 ^ cs.length = c * 256 ^ (q+1) * 256 ^ k by rw [hpow]; ring]
        exact Nat.mul_add_mod' _ _ _
      have hdiv : (c * 256 ^ cs.length + encRev cs) / 256 ^ (k + 1)
          = c * 256 ^ q + encRev cs / 256 ^ (k + 1) := by
        rw [show c * 256 ^ cs.length = 256 ^ (k+1) * (c * 256 ^ q) by rw [hpow1]; ring]
        exact Nat.mul_add_div (Nat.pos_pow_of_pos (k+1) (by norm_num)) _ _
      show encRev (c :: cs.set q v) = bigSet (c * 256 ^ cs.length + encRev cs) k v
      rw [encRev_cons, List.length_set, ih]
      simp only [bigSet]
      rw [hmod, hdiv, hpow1]
      ring


theorem encRev_replicate : ∀ n : Nat, encRev (List.replicate n 0) = 0
  | 0 => rfl
  | n+1 => by
      rw [List.replicate_succ]
      show 0 * 256 ^ (List.replicate n 0).length + encRev (List.replicate n 0) = 0
      rw [Nat.zero_mul, Nat.zero_add, encRev_replicate n]


/-!
## Simulation of the list machine by the arithmetic machine -/

theorem MEMORY_SIZE_pos : 0 < MEMORY_SIZE := by decide

theorem revGet_rep (b : RevState) (st : MachState) (h : RepRev b st) :
    revGet b = st.memory.getD st.ptr 0 := by
  obtain ⟨hlen, hptr, hmem, hin, hc0, hrest, hp, hi, ho⟩ := h
  unfold revGet
  rw [hp, hc0, hrest]
  by_cases h0 : st.ptr = 0
  · simp [h0]
  · simp only [if_neg h0]
    cases hm : st.memory with
    | nil => rw [hm] at hlen; simp [MEMORY_SIZE] at hlen
    | cons m0 tl =>
      have htl : tl.length = MEMORY_SIZE - 1 := by
        rw [hm] at hlen; simp only [List.length_cons] at hlen; omega
      have hq : st.ptr - 1 < tl.length := by
        rw [htl]; omega
      have hbound : ∀ v ∈ tl, v < 256 := fun v hv =>
        hmem v (hm ▸ List.mem_cons_of_mem m0 hv)
      have hget := encRev_getD tl (st.ptr - 1) hbound hq
      have hidx : tl.length - 1 - (st.ptr - 1) = MEMORY_SIZE - 1 - st.ptr := by
        rw [htl]; omega
      simp only [List.tail_cons]
      rw [← hidx, hget, getD_cons_of_pos m0 tl st.ptr (Nat.pos_of_ne_zero h0)]

theorem revSet_rep (b : RevState) (st : MachState) (h : RepRev b st) (v : Nat)
    (hv : v < 256) :
    RepRev (revSet b v) { st with memory := st.memory.set st.ptr v } := by
  obtain ⟨hlen, hptr, hmem, hin, hc0, hrest, hp, hi, ho⟩ := h
  have hmem2 : ∀ x ∈ st.memory.set st.ptr v, x < 256 := by
    intro x hx
    rcases mem_set_of st.memory st.ptr v x hx with h2 | h2
    · exact hmem x h2
    · exact h2 ▸ hv
  have hlen2 : (st.memory.set st.ptr v).length = MEMORY_SIZE := by
    rw [List.length_set]; exact hlen
  unfold revSet
  rw [hp]
  by_cases h0 : st.ptr = 0
  · simp only [if_pos h0]
    refine ⟨hlen2, hptr, hmem2, hin, ?_, ?_, rfl, hi, ho⟩
    · rw [h0]
      exact (getD_set_self st.memory 0 v (by rw [hlen]; exact MEMORY_SIZE_pos)).symm
    · rw [h0, tail_set_zero]
      exact hrest
  · simp only [if_neg h0]
    obtain ⟨q, hq1⟩ : ∃ q, st.ptr = q + 1 := ⟨st.ptr - 1, by omega⟩
    refine ⟨hlen2, hptr, hmem2, hin, ?_, ?_, rfl, hi, ho⟩
    · rw [hq1, getD_zero_set_succ]
      exact hc0
    · rw [hq1, tail_set_succ]
      cases hm : st.memory with
      | nil => rw [hm] at hlen; simp [MEMORY_SIZE] at hlen
      | cons m0 tl =>
        have htl : tl.length = MEMORY_SIZE - 1 := by
          rw [hm] at hlen; simp only [List.length_cons] at hlen; omega
        have hqlt : q < tl.length := by
          rw [htl]; omega
        have hbound : ∀ x ∈ tl, x < 256 := fun x hx =>
          hmem x (hm ▸ List.mem_cons_of_mem m0 hx)
        have hidx : tl.length - 1 - q = MEMORY_SIZE - 1 - st.ptr := by
          rw [htl, hq1]; omega
        rw [hrest, hm]
        simp only [List.tail_cons]
        rw [encRev_set tl q v hbound hqlt, hidx, hq1]

theorem revExecCmd_rep (b : RevState) (st : MachState) (h : RepRev b st) :
    ∀ c : Cmd, RepRev (revExecCmd b c) (execCmd st c) := by
  obtain ⟨hlen, hptr, hmem, hin, hc0, hrest, hp, hi, ho⟩ := h
  intro c
  cases c with
  | inc =>
      show RepRev (revSet b ((revGet b + 1) % 256)) _
      rw [revGet_rep b st ⟨hlen, hptr, hmem, hin, hc0, hrest, hp, hi, ho⟩]
      exact revSet_rep b st ⟨hlen, hptr, hmem, hin, hc0, hrest, hp, hi, ho⟩ _
        (Nat.mod_lt _ (by norm_num))
  | dec =>
      show RepRev (revSet b ((revGet b + 255) % 256)) _
      rw [revGet_rep b st ⟨hlen, hptr, hmem, hin, hc0, hrest, hp, hi, ho⟩]
      exact revSet_rep b st ⟨hlen, hptr, hmem, hin, hc0, hrest, hp, hi, ho⟩ _
        (Nat.mod_lt _ (by norm_num))
  | left =>
      show RepRev { b with ptr := (b.ptr + (USIZE - 1)) % USIZE % MEMORY_SIZE }
          { st with ptr := (st.ptr + (USIZE - 1)) % USIZE % MEMORY_SIZE }
      refine ⟨hlen, Nat.mod_lt _ MEMORY_SIZE_pos, hmem, hin, hc0, hrest, ?_, hi, ho⟩
      show (b.ptr + (USIZE - 1)) % USIZE % MEMORY_SIZE
          = (st.ptr + (USIZE - 1)) % USIZE % MEMORY_SIZE
      rw [hp]
  | right =>
      show RepRev { b with ptr := (b.ptr + 1) % MEMORY_SIZE }
          { st with ptr := (st.ptr + 1) % MEMORY_SIZE }
      refine ⟨hlen, Nat.mod_lt _ MEMORY_SIZE_pos, hmem, hin, hc0, hrest, ?_, hi, ho⟩
      show (b.ptr + 1) % MEMORY_SIZE = (st.ptr + 1) % MEMORY_SIZE
      rw [hp]
  | getc =>
      cases hic : st.input with
      | nil =>
          have hexec : execCmd st Cmd.getc = { st with input := [] } := by
            show (match getc st.input with
              | (some b2, rest) => { st with memory := st.memory.set st.ptr b2, input := rest }
              | (none, rest) => { st with input := rest }) = _
            rw [hic]
            rfl
          have hrev : revExecCmd b Cmd.getc = { b with input := [] } := by
            show (match getc b.input with
              | (some b2, rest) => revSet { b with input := rest } b2
              | (none, rest) => { b with input := rest }) = _
            rw [hi, hic]
            rfl
          rw [hexec, hrev]
          exact ⟨hlen, hptr, hmem, by simp, hc0, hrest, hp, rfl, ho⟩
      | cons v rest =>
          have hrep2 : RepRev { b with input := rest } { st with input := rest } :=
            ⟨hlen, hptr, hmem, fun x hx => hin x (hic ▸ List.mem_cons_of_mem v hx),
              hc0, hrest, hp, rfl, ho⟩
          have hv : v < 256 := hin v (hic ▸ List.mem_cons_self v rest)
          have hset := revSet_rep _ _ hrep2 v hv
          have hexec : execCmd st Cmd.getc
              = { st with memory := st.memory.set st.ptr v, input := rest } := by
            show (match getc st.input with
              | (some b2, r2) => { st with memory := st.memory.set st.ptr b2, input := r2 }
              | (none, r2) => { st with input := r2 }) = _
            rw [hic]
            rfl
          have hrev : revExecCmd b Cmd.getc = revSet { b with input := rest } v := by
            show (match getc b.input with
              | (some b2, r2) => revSet { b with input := r2 } b2
              | (none, r2) => { b with input := r2 }) = _
            rw [hi, hic]
            rfl
          rw [hexec, hrev]
          exact hset
  | putc =>
      refine ⟨hlen, hptr, hmem, hin, hc0, hrest, hp, hi, ?_⟩
      show b.output ++ [revGet b] = st.output ++ [st.memory.getD st.ptr 0]
      rw [revGet_rep b st ⟨hlen, hptr, hmem, hin, hc0, hrest, hp, hi, ho⟩, ho]

theorem revExecBlock_rep : ∀ (instrs : List Cmd) (b : RevState) (st : MachState),
    RepRev b st → RepRev (revExecBlock b instrs) (execBlock st instrs)
  | [], _, _, h => h
  | c :: cs, b, st, h =>
      revExecBlock_rep cs (revExecCmd b c) (execCmd st c) (revExecCmd_rep b st h c)

theorem revRunLoop_rep (blocks : List BasicBlock) :
    ∀ (fuel bb_no : Nat) (b : RevState) (st : MachState), RepRev b st →
    (revRunLoop blocks fuel bb_no b).map RevState.output
      = (runLoop blocks fuel bb_no st).map MachState.output
  | 0, _, _, _, _ => rfl
  | fuel+1, bb_no, b, st, h => by
      have h1 := revExecBlock_rep (fetch blocks bb_no).instrs b st h
      simp only [revRunLoop, runLoop, branchTarget]
      rw [revGet_rep _ _ h1]
      cases htarget : (if (execBlock st (fetch blocks bb_no).instrs).memory.getD
          (execBlock st (fetch blocks bb_no).instrs).ptr 0 = 0
          then (fetch blocks bb_no).jz else (fetch blocks bb_no).jnz) with
      | none =>
          obtain ⟨_, _, _, _, _, _, _, _, ho1⟩ := h1
          show some (revExecBlock b (fetch blocks bb_no).instrs).output
              = some (execBlock st (fetch blocks bb_no).instrs).output
          exact congrArg some ho1
      | some next_bb =>
          exact revRunLoop_rep blocks fuel next_bb _ _ h1

theorem RepRev_init (input : List Nat) (hin : ∀ v ∈ input, v < 256) :
    RepRev { c0 := 0, rest := 0, ptr := 0, input := input, output := [] }
      { memory := List.replicate MEMORY_SIZE 0, ptr := 0, input := input, output := [] } := by
  have hrepl : List.replicate MEMORY_SIZE (0:Nat) = 0 :: List.replicate 65535 0 := by
    rw [show MEMORY_SIZE = 65535 + 1 from rfl, List.replicate_succ]
  refine ⟨by simp, MEMORY_SIZE_pos,
    fun v hv => by rw [List.eq_of_mem_replicate hv]; omega,
    hin, ?_, ?_, rfl, rfl, rfl⟩
  · rw [hrepl]; rfl
  · rw [hrepl]
    simp only [List.tail_cons]
    exact (encRev_replicate 65535).symm



/-!
## Claim C8: the brainfuck printer scenario -/

theorem revRunN_add (blocks : List BasicBlock) : ∀ (n1 n2 bb_no : Nat) (st : RevState),
    revRunN blocks (n1 + n2) bb_no st
      = match revRunN blocks n1 bb_no st with
        | .ok (bb1, st1) => revRunN blocks n2 bb1 st1
        | .error stF => .error stF
  | 0, n2, bb_no, st => by
      rw [Nat.zero_add]
      rfl
  | n1+1, n2, bb_no, st => by
      rw [Nat.succ_add]
      show (match revRun1 blocks bb_no st with
        | .ok (next_bb, st1) => revRunN blocks (n1 + n2) next_bb st1
        | .error st1 => .error st1)
        = match (match revRun1 blocks bb_no st with
            | .ok (next_bb, st1) => revRunN blocks n1 next_bb st1
            | .error st1 => .error st1) with
          | .ok (bb1, st1) => revRunN blocks n2 bb1 st1
          | .error stF => .error stF
      cases revRun1 blocks bb_no st with
      | error st1 => rfl
      | ok p =>
          cases p with
          | mk nb st1 =>
              show revRunN blocks (n1 + n2) nb st1 = _
              rw [revRunN_add blocks n1 n2 nb st1]

theorem revRunLoop_eq_runN (blocks : List BasicBlock) : ∀ (fuel bb_no : Nat) (st : RevState),
    revRunLoop blocks fuel bb_no st
      = match revRunN blocks fuel bb_no st with
        | .error stF => some stF
        | .ok _ => none
  | 0, _, _ => rfl
  | fuel+1, bb_no, st => by
      show (match (if revGet (revExecBlock st (fetch blocks bb_no).instrs) = 0
          then (fetch blocks bb_no).jz else (fetch blocks bb_no).jnz) with
        | some next_bb => revRunLoop blocks fuel next_bb
            (revExecBlock st (fetch blocks bb_no).instrs)
        | none => some (revExecBlock st (fetch blocks bb_no).instrs))
        = match (match revRun1 blocks bb_no st with
            | .ok (next_bb, st1) => revRunN blocks fuel next_bb st1
            | .error st1 => .error st1) with
          | .error stF => some stF
          | .ok _ => none
      have hr1 : revRun1 blocks bb_no st
          = match (if revGet (revExecBlock st (fetch blocks bb_no).instrs) = 0
              then (fetch blocks bb_no).jz else (fetch blocks bb_no).jnz) with
            | some next_bb => .ok (next_bb, revExecBlock st (fetch blocks bb_no).instrs)
            | none => .error (revExecBlock st (fetch blocks bb_no).instrs) := rfl
      rw [hr1]
      cases htgt : (if revGet (revExecBlock st (fetch blocks bb_no).instrs) = 0
          then (fetch blocks bb_no).jz else (fetch blocks bb_no).jnz) with
      | none => rfl
      | some next_bb =>
          show revRunLoop blocks fuel next_bb (revExecBlock st (fetch blocks bb_no).instrs) = _
          rw [revRunLoop_eq_runN blocks fuel next_bb
            (revExecBlock st (fetch blocks bb_no).instrs)]

theorem c8_blocks : into_basic_blocks progC8 = Except.ok blocksC8 := rfl



/-!
## Reduction equations of the compilation scan -/

theorem compileStep_plus (st : CompState) :
    compileStep st '+' = .ok { st with curBasicBlock := st.curBasicBlock ++ [Cmd.inc] } := rfl

theorem compileStep_open (st : CompState) :
    compileStep st '[' =
      .ok { bbnoStack := st.curBbId :: st.bbnoStack,
            basicBlocks := st.basicBlocks ++
              [{ instrs := st.curBasicBlock, jz := none, jnz := some (st.curBbId + 1) }],
            curBasicBlock := [],
            curBbId := st.curBbId + 1 } := rfl

theorem compileStep_close (st : CompState) :
    compileStep st ']' = match st.bbnoStack with
      | [] => .error (Error.syntaxError ']')
      | popped :: rest =>
          .ok { bbnoStack := rest,
                basicBlocks :=
                  setJz (st.basicBlocks ++
                    [{ instrs := st.curBasicBlock, jz := some (st.curBbId + 1),
                       jnz := some (popped + 1) }]) popped (st.curBbId + 1),
                curBasicBlock := [],
                curBbId := st.curBbId + 1 } := rfl


theorem compileStep_other (st : CompState) (c : Char) (h1 : c ≠ '[') (h2 : c ≠ ']') :
    ∃ st2, compileStep st c = .ok st2 ∧ st2.bbnoStack = st.bbnoStack ∧
      st2.basicBlocks = st.basicBlocks ∧ st2.curBbId = st.curBbId := by
  unfold compileStep
  split
  all_goals first
    | exact ⟨_, rfl, rfl, rfl, rfl⟩
    | exact absurd rfl h1
    | exact absurd rfl h2

theorem scanBrackets_open (cs : List Char) (d : Nat) :
    scanBrackets ('[' :: cs) d = scanBrackets cs (d + 1) := rfl

theorem scanBrackets_close (cs : List Char) (d : Nat) :
    scanBrackets (']' :: cs) d = if d = 0 then none else scanBrackets cs (d - 1) := rfl

theorem scanBrackets_other (cs : List Char) (d : Nat) (c : Char)
    (h1 : c ≠ '[') (h2 : c ≠ ']') : scanBrackets (c :: cs) d = scanBrackets cs d := by
  simp only [scanBrackets]
  rw [if_neg h1, if_neg h2]

theorem foldlM_compile_cons (st : CompState) (c : Char) (cs : List Char) :
    List.foldlM compileStep st (c :: cs) =
      match compileStep st c with
      | .error e => .error e
      | .ok st2 => List.foldlM compileStep st2 cs := by
  rw [List.foldlM_cons]
  cases compileStep st c <;> rfl

theorem compileFold_ok : ∀ (cs : List Char) (st : CompState) (d : Nat),
    scanBrackets cs st.bbnoStack.length = some d →
    ∃ st2, List.foldlM compileStep st cs = .ok st2 ∧ st2.bbnoStack.length = d
  | [], st, d, h => ⟨st, rfl, Option.some.inj h⟩
  | c :: cs, st, d, h => by
      by_cases h1 : c = '['
      · subst h1
        rw [scanBrackets_open] at h
        rw [foldlM_compile_cons, compileStep_open]
        exact compileFold_ok cs _ d (by simpa using h)
      · by_cases h2 : c = ']'
        · subst h2
          rw [scanBrackets_close] at h
          by_cases h0 : st.bbnoStack.length = 0
          · rw [if_pos h0] at h
            exact absurd h (by simp)
          · rw [if_neg h0] at h
            cases hstk : st.bbnoStack with
            | nil => rw [hstk] at h0; simp at h0
            | cons p rest =>
                rw [foldlM_compile_cons, compileStep_close, hstk]
                refine compileFold_ok cs _ d ?_
                rw [hstk] at h
                simpa using h
        · obtain ⟨st2, hstep, hstk, _, _⟩ := compileStep_other st c h1 h2
          rw [scanBrackets_other cs _ c h1 h2] at h
          rw [foldlM_compile_cons, hstep]
          exact compileFold_ok cs st2 d (by rw [hstk]; exact h)

theorem compileFold_close_err : ∀ (cs : List Char) (st : CompState),
    scanBrackets cs st.bbnoStack.length = none →
    List.foldlM compileStep st cs = .error (Error.syntaxError ']')
  | [], st, h => by simp [scanBrackets] at h
  | c :: cs, st, h => by
      by_cases h1 : c = '['
      · subst h1
        rw [scanBrackets_open] at h
        rw [foldlM_compile_cons, compileStep_open]
        exact compileFold_close_err cs _ (by simpa using h)
      · by_cases h2 : c = ']'
        · subst h2
          rw [scanBrackets_close] at h
          by_cases h0 : st.bbnoStack.length = 0
          · have hstk : st.bbnoStack = [] := List.eq_nil_of_length_eq_zero h0
            rw [foldlM_compile_cons, compileStep_close, hstk]
          · rw [if_neg h0] at h
            cases hstk : st.bbnoStack with
            | nil => rw [hstk] at h0; simp at h0
            | cons p rest =>
                rw [foldlM_compile_cons, compileStep_close, hstk]
                refine compileFold_close_err cs _ ?_
                rw [hstk] at h
                simpa using h
        · obtain ⟨st2, hstep, hstk, _, _⟩ := compileStep_other st c h1 h2
          rw [scanBrackets_other cs _ c h1 h2] at h
          rw [foldlM_compile_cons, hstep]
          exact compileFold_close_err cs st2 (by rw [hstk]; exact h)

theorem into_ok_of_scan (s : String) (h : scanBrackets s.data 0 = some 0) :
    ∃ blocks, into_basic_blocks s = .ok blocks := by
  obtain ⟨st2, hfold, hlen⟩ := compileFold_ok s.data
    { bbnoStack := [], basicBlocks := [], curBasicBlock := [], curBbId := 0 } 0 h
  have hstk : st2.bbnoStack = [] := List.eq_nil_of_length_eq_zero hlen
  refine ⟨st2.basicBlocks ++ [{ instrs := st2.curBasicBlock, jz := none, jnz := none }], ?_⟩
  unfold into_basic_blocks
  rw [hfold]
  simp [hstk]

theorem into_open_err (s : String) (d : Nat) (h : scanBrackets s.data 0 = some (d + 1)) :
    into_basic_blocks s = .error (Error.syntaxError '[') := by
  obtain ⟨st2, hfold, hlen⟩ := compileFold_ok s.data
    { bbnoStack := [], basicBlocks := [], curBasicBlock := [], curBbId := 0 } (d + 1) h
  have hstk : st2.bbnoStack.isEmpty = false := by
    cases hs : st2.bbnoStack with
    | nil => rw [hs] at hlen; simp at hlen
    | cons a l => rfl
  unfold into_basic_blocks
  rw [hfold]
  simp [hstk]

theorem into_close_err (s : String) (h : scanBrackets s.data 0 = none) :
    into_basic_blocks s = .error (Error.syntaxError ']') := by
  have hfold := compileFold_close_err s.data
    { bbnoStack := [], basicBlocks := [], curBasicBlock := [], curBbId := 0 } h
  unfold into_basic_blocks
  rw [hfold]


/-!
## Branch-target invariants of compilation -/

theorem setJz_length : ∀ (L : List BasicBlock) (p t : Nat), (setJz L p t).length = L.length
  | [], _, _ => rfl
  | _ :: bs, 0, _ => rfl
  | _ :: bs, p+1, t => by simp [setJz, setJz_length bs p t]

theorem mem_setJz : ∀ (L : List BasicBlock) (p t : Nat) (b2 : BasicBlock),
    b2 ∈ setJz L p t → ∃ b ∈ L, b2.instrs = b.instrs ∧ b2.jnz = b.jnz ∧
      (b2.jz = b.jz ∨ b2.jz = some t)
  | [], _, _, _, hb => absurd hb (List.not_mem_nil _)
  | b :: bs, 0, t, b2, hb => by
      rcases List.mem_cons.mp hb with h | h
      · exact ⟨b, List.mem_cons_self b bs, by rw [h], by rw [h], Or.inr (by rw [h])⟩
      · exact ⟨b2, List.mem_cons_of_mem b h, rfl, rfl, Or.inl rfl⟩
  | b :: bs, p+1, t, b2, hb => by
      rcases List.mem_cons.mp hb with h | h
      · exact ⟨b, List.mem_cons_self b bs, by rw [h], by rw [h], Or.inl (by rw [h])⟩
      · obtain ⟨b0, hb0, h1, h2, h3⟩ := mem_setJz bs p t b2 h
        exact ⟨b0, List.mem_cons_of_mem b hb0, h1, h2, h3⟩

theorem TargetsLe_mono (bb : BasicBlock) (n m : Nat) (h : TargetsLe bb n) (hnm : n ≤ m) :
    TargetsLe bb m :=
  ⟨fun t ht => Nat.le_trans (h.1 t ht) hnm, fun t ht => Nat.le_trans (h.2 t ht) hnm⟩

theorem compileStep_inv (st : CompState) (c : Char) (st2 : CompState)
    (hstep : compileStep st c = .ok st2) (hinv : CompInv st) : CompInv st2 := by
  obtain ⟨hid, hbb, hstk⟩ := hinv
  by_cases h1 : c = '['
  · subst h1
    rw [compileStep_open] at hstep
    cases hstep
    refine ⟨?_, ?_, ?_⟩
    · simp [hid]
    · intro bb hb
      rcases List.mem_append.mp hb with h | h
      · exact TargetsLe_mono bb st.curBbId _ (hbb bb h) (Nat.le_succ _)
      · rw [List.mem_singleton.mp h]
        refine ⟨fun t ht => by simp at ht, fun t ht => ?_⟩
        simp only [Option.mem_def, Option.some.injEq] at ht
        show t ≤ st.curBbId + 1
        omega
    · intro p hp
      rcases List.mem_cons.mp hp with h | h
      · show p < st.curBbId + 1
        omega
      · exact Nat.lt_succ_of_lt (hstk p h)
  · by_cases h2 : c = ']'
    · subst h2
      rw [compileStep_close] at hstep
      cases hstk2 : st.bbnoStack with
      | nil => rw [hstk2] at hstep; cases hstep
      | cons popped rest =>
          rw [hstk2] at hstep
          cases hstep
          have hpop : popped < st.curBbId := hstk popped (hstk2 ▸ List.mem_cons_self _ _)
          refine ⟨?_, ?_, ?_⟩
          · rw [setJz_length, List.length_append, List.length_singleton, hid]
          · intro bb hb
            obtain ⟨b0, hb0, hbi, hbjnz, hbjz⟩ := mem_setJz _ _ _ bb hb
            rcases List.mem_append.mp hb0 with h | h
            · have hb0le := TargetsLe_mono b0 st.curBbId _ (hbb b0 h) (Nat.le_succ _)
              refine ⟨fun t ht => ?_, fun t ht => ?_⟩
              · show t ≤ st.curBbId + 1
                rcases hbjz with hz | hz
                · exact hb0le.1 t (hz ▸ ht)
                · rw [hz] at ht
                  simp only [Option.mem_def, Option.some.injEq] at ht
                  omega
              · show t ≤ st.curBbId + 1
                have ht2 : t ∈ b0.jnz := hbjnz ▸ ht
                exact hb0le.2 t ht2
            · rw [List.mem_singleton.mp h] at hbi hbjnz hbjz
              refine ⟨fun t ht => ?_, fun t ht => ?_⟩
              · show t ≤ st.curBbId + 1
                rcases hbjz with hz | hz <;>
                  (rw [hz] at ht; simp only [Option.mem_def, Option.some.injEq] at ht; omega)
              · show t ≤ st.curBbId + 1
                rw [hbjnz] at ht
                simp only [Option.mem_def, Option.some.injEq] at ht
                omega
          · intro p hp
            have hpmem : p ∈ st.bbnoStack := hstk2 ▸ List.mem_cons_of_mem popped hp
            show p < st.curBbId + 1
            exact Nat.lt_succ_of_lt (hstk p hpmem)
    · obtain ⟨st3, hstep2, hs1, hs2, hs3⟩ := compileStep_other st c h1 h2
      rw [hstep2] at hstep
      cases hstep
      exact ⟨hs3 ▸ hs2 ▸ hid, hs2 ▸ hs3 ▸ hbb, hs1 ▸ hs3 ▸ hstk⟩

theorem compileFold_inv : ∀ (cs : List Char) (st st2 : CompState),
    List.foldlM compileStep st cs = .ok st2 → CompInv st → CompInv st2
  | [], st, st2, hfold, hinv => by
      cases hfold
      exact hinv
  | c :: cs, st, st2, hfold, hinv => by
      rw [foldlM_compile_cons] at hfold
      cases hstep : compileStep st c with
      | error e => rw [hstep] at hfold; cases hfold
      | ok st1 =>
          rw [hstep] at hfold
          exact compileFold_inv cs st1 st2 hfold (compileStep_inv st c st1 hstep hinv)

theorem into_inv (s : String) (blocks : List BasicBlock)
    (h : into_basic_blocks s = .ok blocks) :
    ∃ n, blocks.length = n + 1 ∧ ∀ bb ∈ blocks, TargetsLe bb n := by
  cases hfold : List.foldlM compileStep
      { bbnoStack := [], basicBlocks := [], curBasicBlock := [], curBbId := 0 } s.data with
  | error e =>
      have hh : into_basic_blocks s = .error e := by
        unfold into_basic_blocks
        rw [hfold]
      rw [hh] at h
      cases h
  | ok st2 =>
      have hinv := compileFold_inv s.data _ st2 hfold ⟨rfl, by simp, by simp⟩
      obtain ⟨hid, hbb, hstk⟩ := hinv
      by_cases hempty : st2.bbnoStack.isEmpty
      · have hh : into_basic_blocks s
            = .ok (st2.basicBlocks ++ [{ instrs := st2.curBasicBlock, jz := none, jnz := none }]) := by
          unfold into_basic_blocks
          rw [hfold]
          simp [hempty]
        rw [hh] at h
        cases h
        refine ⟨st2.curBbId, ?_, ?_⟩
        · rw [List.length_append, List.length_singleton, hid]
        · intro bb hb
          rcases List.mem_append.mp hb with h | h
          · exact hbb bb h
          · rw [List.mem_singleton.mp h]
            exact ⟨fun t ht => by simp at ht, fun t ht => by simp at ht⟩
      · have hh : into_basic_blocks s = .error (Error.syntaxError '[') := by
          unfold into_basic_blocks
          rw [hfold]
          simp [hempty]
        rw [hh] at h
        cases h

theorem into_targets_lt (s : String) (blocks : List BasicBlock)
    (h : into_basic_blocks s = .ok blocks) :
    ∀ bb ∈ blocks, (∀ t ∈ bb.jz, t < blocks.length) ∧ (∀ t ∈ bb.jnz, t < blocks.length) := by
  obtain ⟨n, hlen, hall⟩ := into_inv s blocks h
  intro bb hb
  have := hall bb hb
  exact ⟨fun t ht => by have := this.1 t ht; omega,
    fun t ht => by have := this.2 t ht; omega⟩


/-!
## In-bounds invariants of execution -/

theorem execCmd_ptrOk (st : MachState) (c : Cmd)
    (h1 : st.ptr < MEMORY_SIZE) (h2 : st.memory.length = MEMORY_SIZE) :
    (execCmd st c).ptr < MEMORY_SIZE ∧ (execCmd st c).memory.length = MEMORY_SIZE := by
  cases c with
  | inc =>
      have he : execCmd st Cmd.inc
          = { st with memory := st.memory.set st.ptr ((st.memory.getD st.ptr 0 + 1) % 256) } := rfl
      rw [he]
      refine ⟨h1, ?_⟩
      show (st.memory.set st.ptr ((st.memory.getD st.ptr 0 + 1) % 256)).length = MEMORY_SIZE
      rw [List.length_set]
      exact h2
  | dec =>
      have he : execCmd st Cmd.dec
          = { st with memory := st.memory.set st.ptr ((st.memory.getD st.ptr 0 + 255) % 256) } := rfl
      rw [he]
      refine ⟨h1, ?_⟩
      show (st.memory.set st.ptr ((st.memory.getD st.ptr 0 + 255) % 256)).length = MEMORY_SIZE
      rw [List.length_set]
      exact h2
  | left =>
      have he : execCmd st Cmd.left
          = { st with ptr := (st.ptr + (USIZE - 1)) % USIZE % MEMORY_SIZE } := rfl
      rw [he]
      refine ⟨?_, h2⟩
      show (st.ptr + (USIZE - 1)) % USIZE % MEMORY_SIZE < MEMORY_SIZE
      exact Nat.mod_lt _ MEMORY_SIZE_pos
  | right =>
      have he : execCmd st Cmd.right
          = { st with ptr := (st.ptr + 1) % MEMORY_SIZE } := rfl
      rw [he]
      refine ⟨?_, h2⟩
      show (st.ptr + 1) % MEMORY_SIZE < MEMORY_SIZE
      exact Nat.mod_lt _ MEMORY_SIZE_pos
  | getc =>
      cases hic : st.input with
      | nil =>
          have hexec : execCmd st Cmd.getc = { st with input := [] } := by
            show (match getc st.input with
              | (some b2, rest) => { st with memory := st.memory.set st.ptr b2, input := rest }
              | (none, rest) => { st with input := rest }) = _
            rw [hic]
            rfl
          rw [hexec]
          exact ⟨h1, h2⟩
      | cons v rest =>
          have hexec : execCmd st Cmd.getc
              = { st with memory := st.memory.set st.ptr v, input := rest } := by
            show (match getc st.input with
              | (some b2, r2) => { st with memory := st.memory.set st.ptr b2, input := r2 }
              | (none, r2) => { st with input := r2 }) = _
            rw [hic]
            rfl
          rw [hexec]
          refine ⟨h1, ?_⟩
          show (st.memory.set st.ptr v).length = MEMORY_SIZE
          rw [List.length_set]
          exact h2
  | putc =>
      have he : execCmd st Cmd.putc
          = { st with output := st.output ++ [st.memory.getD st.ptr 0] } := rfl
      rw [he]
      exact ⟨h1, h2⟩

theorem execBlock_ptrOk : ∀ (instrs : List Cmd) (st : MachState),
    st.ptr < MEMORY_SIZE → st.memory.length = MEMORY_SIZE →
    (execBlock st instrs).ptr < MEMORY_SIZE ∧ (execBlock st instrs).memory.length = MEMORY_SIZE
  | [], _, q1, q2 => ⟨q1, q2⟩
  | c :: cs, st, q1, q2 => by
      obtain ⟨r1, r2⟩ := execCmd_ptrOk st c q1 q2
      exact execBlock_ptrOk cs (execCmd st c) r1 r2

theorem getD_mem_of_lt : ∀ (L : List BasicBlock) (i : Nat) (d : BasicBlock),
    i < L.length → L.getD i d ∈ L
  | [], i, _, h => absurd h (by simp)
  | b :: bs, 0, d, _ => List.mem_cons_self b bs
  | b :: bs, i+1, d, h =>
      List.mem_cons_of_mem b (getD_mem_of_lt bs i d (Nat.lt_of_succ_lt_succ h))

theorem reaches_inv (s : String) (blocks : List BasicBlock)
    (hcomp : into_basic_blocks s = .ok blocks) :
    ∀ (bb_no : Nat) (st : MachState), Reaches blocks bb_no st →
      bb_no < blocks.length ∧ st.ptr < MEMORY_SIZE ∧ st.memory.length = MEMORY_SIZE := by
  obtain ⟨n, hlen, htargets⟩ := into_inv s blocks hcomp
  intro bb_no st h
  induction h with
  | init input => exact ⟨by omega, MEMORY_SIZE_pos, by simp⟩
  | step bb_no st next_bb hreach htarget ih =>
      obtain ⟨ihb, ihp, ihm⟩ := ih
      have hblk := execBlock_ptrOk (fetch blocks bb_no).instrs st ihp ihm
      refine ⟨?_, hblk.1, hblk.2⟩
      have hfetchmem : fetch blocks bb_no ∈ blocks := getD_mem_of_lt blocks bb_no _ ihb
      have hT := htargets _ hfetchmem
      unfold branchTarget at htarget
      by_cases hz : (execBlock st (fetch blocks bb_no).instrs).memory.getD
          (execBlock st (fetch blocks bb_no).instrs).ptr 0 = 0
      · rw [if_pos hz] at htarget
        have := hT.1 next_bb (Option.mem_def.mpr htarget)
        omega
      · rw [if_neg hz] at htarget
        have := hT.2 next_bb (Option.mem_def.mpr htarget)
        omega

/-!
## List update lemmas for the back-patch step -/

theorem setJz_append_lt : ∀ (L : List BasicBlock) (b : BasicBlock) (p t : Nat),
    p < L.length → setJz (L ++ [b]) p t = setJz L p t ++ [b]
  | [], _, p, _, h => absurd h (by simp)
  | b0 :: bs, b, 0, t, _ => rfl
  | b0 :: bs, b, p+1, t, h => by
      show b0 :: setJz (bs ++ [b]) p t = b0 :: (setJz bs p t ++ [b])
      rw [setJz_append_lt bs b p t (Nat.lt_of_succ_lt_succ h)]

theorem getD_append_self : ∀ (A : List BasicBlock) (b d : BasicBlock),
    (A ++ [b]).getD A.length d = b
  | [], _, _ => rfl
  | _ :: as2, b, d => getD_append_self as2 b d

theorem getD_append_lt : ∀ (A B : List BasicBlock) (i : Nat) (d : BasicBlock),
    i < A.length → (A ++ B).getD i d = A.getD i d
  | [], _, i, _, h => absurd h (by simp)
  | _ :: as2, B, 0, d, _ => rfl
  | _ :: as2, B, i+1, d, h => getD_append_lt as2 B i d (Nat.lt_of_succ_lt_succ h)

theorem getD_setJz_self : ∀ (L : List BasicBlock) (p t : Nat) (d : BasicBlock),
    p < L.length → (setJz L p t).getD p d = { L.getD p d with jz := some t }
  | [], p, _, _, h => absurd h (by simp)
  | b :: bs, 0, t, d, _ => rfl
  | b :: bs, p+1, t, d, h => getD_setJz_self bs p t d (Nat.lt_of_succ_lt_succ h)


/-!
## Claim theorems -/

/-- C1: scanning `]` with an empty pending stack fails immediately with
SyntaxError(']'); with pending stack topped by `popped` it seals the
in-progress block as a new basic block whose branch-if-zero target is the
index of the next block to be compiled (`curBbId + 1`) and whose
branch-if-nonzero target is `popped + 1`, and back-patches block `popped`'s
branch-if-zero target to the index of the next block to be compiled. -/
theorem c1_close_step : ∀ st : CompState,
    (st.bbnoStack = [] → compileStep st ']' = .error (Error.syntaxError ']')) ∧
    (∀ popped rest, st.bbnoStack = popped :: rest → popped < st.basicBlocks.length →
      st.curBbId = st.basicBlocks.length →
      ∃ blocks2,
        compileStep st ']'
          = .ok { bbnoStack := rest, basicBlocks := blocks2,
                  curBasicBlock := [], curBbId := st.curBbId + 1 } ∧
        blocks2.length = st.curBbId + 1 ∧
        blocks2.getD st.basicBlocks.length { instrs := [], jz := none, jnz := none }
          = { instrs := st.curBasicBlock, jz := some (st.curBbId + 1),
              jnz := some (popped + 1) } ∧
        (blocks2.getD popped { instrs := [], jz := none, jnz := none }).jz
          = some (st.curBbId + 1) ∧
        (blocks2.getD popped { instrs := [], jz := none, jnz := none }).instrs
          = (st.basicBlocks.getD popped { instrs := [], jz := none, jnz := none }).instrs ∧
        (blocks2.getD popped { instrs := [], jz := none, jnz := none }).jnz
          = (st.basicBlocks.getD popped { instrs := [], jz := none, jnz := none }).jnz) := by
  intro st
  constructor
  · intro hstk
    rw [compileStep_close, hstk]
  · intro popped rest hstk hlt hid
    rw [compileStep_close, hstk]
    refine ⟨setJz (st.basicBlocks ++
      [{ instrs := st.curBasicBlock, jz := some (st.curBbId + 1),
         jnz := some (popped + 1) }]) popped (st.curBbId + 1), rfl, ?_, ?_, ?_, ?_, ?_⟩
    · rw [setJz_length, List.length_append, List.length_singleton, hid]
    · rw [setJz_append_lt _ _ _ _ hlt,
        show st.basicBlocks.length
          = (setJz st.basicBlocks popped (st.curBbId + 1)).length from (setJz_length _ _ _).symm,
        getD_append_self]
    · rw [setJz_append_lt _ _ _ _ hlt,
        getD_append_lt _ _ _ _ (by rw [setJz_length]; exact hlt),
        getD_setJz_self _ _ _ _ hlt]
    · rw [setJz_append_lt _ _ _ _ hlt,
        getD_append_lt _ _ _ _ (by rw [setJz_length]; exact hlt),
        getD_setJz_self _ _ _ _ hlt]
    · rw [setJz_append_lt _ _ _ _ hlt,
        getD_append_lt _ _ _ _ (by rw [setJz_length]; exact hlt),
        getD_setJz_self _ _ _ _ hlt]

theorem c1_close_step_witness :
    (compileStep { bbnoStack := [], basicBlocks := [], curBasicBlock := [], curBbId := 0 } ']'
      = .error (Error.syntaxError ']')) ∧
    ∃ blocks2,
      compileStep { bbnoStack := [0],
                    basicBlocks := [{ instrs := [Cmd.inc], jz := none, jnz := some 1 }],
                    curBasicBlock := [], curBbId := 1 } ']'
        = .ok { bbnoStack := [], basicBlocks := blocks2,
                curBasicBlock := [], curBbId := 2 } ∧
      blocks2.length = 2 ∧
      blocks2.getD 1 { instrs := [], jz := none, jnz := none }
        = { instrs := [], jz := some 2, jnz := some 1 } ∧
      (blocks2.getD 0 { instrs := [], jz := none, jnz := none }).jz = some 2 := by
  refine ⟨(c1_close_step _).1 rfl, ?_⟩
  obtain ⟨b2, h1, h2, h3, h4, h5, h6⟩ :=
    (c1_close_step { bbnoStack := [0],
                     basicBlocks := [{ instrs := [Cmd.inc], jz := none, jnz := some 1 }],
                     curBasicBlock := [], curBbId := 1 }).2 0 [] rfl (by decide) rfl
  exact ⟨b2, h1, h2, h3, h4⟩

/-- C2: a source whose bracket scan completes with depth 0 compiles
successfully; one whose scan completes with positive depth (an unmatched
opening bracket) fails with SyntaxError('['); one whose scan aborts (a
closing bracket at depth 0) fails with SyntaxError(']'). -/
theorem c2_bracket_classification : ∀ s : String,
    (scanBrackets s.data 0 = some 0 → ∃ blocks, into_basic_blocks s = .ok blocks) ∧
    (∀ d, scanBrackets s.data 0 = some (d + 1) →
      into_basic_blocks s = .error (Error.syntaxError '[')) ∧
    (scanBrackets s.data 0 = none → into_basic_blocks s = .error (Error.syntaxError ']')) :=
  fun s => ⟨into_ok_of_scan s, fun d h => into_open_err s d h, into_close_err s⟩

theorem c2_bracket_classification_witness :
    (∃ blocks, into_basic_blocks "+[-]" = .ok blocks) ∧
    into_basic_blocks "[[]" = .error (Error.syntaxError '[') ∧
    into_basic_blocks "]" = .error (Error.syntaxError ']') :=
  ⟨(c2_bracket_classification "+[-]").1 rfl,
    (c2_bracket_classification "[[]").2.1 0 rfl,
    (c2_bracket_classification "]").2.2 rfl⟩

/-- C3: under the wraparound tape policy, MoveRight at the last tape index
sets the cursor to 0, and MoveLeft at index 0 sets the cursor to the last
tape index. -/
theorem c3_wraparound : ∀ st : MachState,
    (st.ptr = MEMORY_SIZE - 1 → (execCmd st Cmd.right).ptr = 0) ∧
    (st.ptr = 0 → (execCmd st Cmd.left).ptr = MEMORY_SIZE - 1) := by
  intro st
  constructor
  · intro h
    show (st.ptr + 1) % MEMORY_SIZE = 0
    rw [h]
    decide
  · intro h
    show (st.ptr + (USIZE - 1)) % USIZE % MEMORY_SIZE = MEMORY_SIZE - 1
    rw [h]
    decide

theorem c3_wraparound_witness :
    (execCmd { memory := [], ptr := MEMORY_SIZE - 1, input := [], output := [] }
      Cmd.right).ptr = 0 ∧
    (execCmd { memory := [], ptr := 0, input := [], output := [] }
      Cmd.left).ptr = MEMORY_SIZE - 1 :=
  ⟨(c3_wraparound _).1 rfl, (c3_wraparound _).2 rfl⟩

/-- C4: ReadByte at end of input leaves the whole state (in particular the
current cell) unchanged and does not fail; with a byte available, that byte
is stored into the current cell with no transformation and removed from the
input. -/
theorem c4_readbyte : ∀ st : MachState,
    (st.input = [] → execCmd st Cmd.getc = st) ∧
    (∀ b rest, st.input = b :: rest →
      execCmd st Cmd.getc = { st with memory := st.memory.set st.ptr b, input := rest }) := by
  intro st
  constructor
  · intro h
    have hexec : execCmd st Cmd.getc = { st with input := [] } := by
      show (match getc st.input with
        | (some b2, r2) => { st with memory := st.memory.set st.ptr b2, input := r2 }
        | (none, r2) => { st with input := r2 }) = _
      rw [h]
      rfl
    rw [hexec, ← h]
  · intro b rest h
    show (match getc st.input with
      | (some b2, r2) => { st with memory := st.memory.set st.ptr b2, input := r2 }
      | (none, r2) => { st with input := r2 }) = _
    rw [h]
    rfl

theorem c4_readbyte_witness :
    execCmd { memory := [9], ptr := 0, input := [], output := [] } Cmd.getc
      = { memory := [9], ptr := 0, input := [], output := [] } ∧
    execCmd { memory := [5], ptr := 0, input := [7], output := [] } Cmd.getc
      = { memory := [7], ptr := 0, input := [], output := [] } :=
  ⟨(c4_readbyte _).1 rfl, (c4_readbyte _).2 7 [] rfl⟩

/-- C9: the spec's failure taxonomy has exactly the three kinds SyntaxError,
PointerOutOfBounds and IoError, and under the bounds-checked tape policy a
move past either tape boundary fails with PointerOutOfBounds naming the
offending direction character. -/
theorem c9_taxonomy :
    (∀ e : SpecError, (∃ c, e = SpecError.syntaxError c) ∨
      (∃ c, e = SpecError.pointerOutOfBounds c) ∨ e = SpecError.ioError) ∧
    (∀ ptr : Nat, ptr = 0 →
      moveLeftChecked ptr = .error (SpecError.pointerOutOfBounds '<')) ∧
    (∀ tapeLength ptr : Nat, 0 < tapeLength → ptr = tapeLength - 1 →
      moveRightChecked tapeLength ptr = .error (SpecError.pointerOutOfBounds '>')) := by
  refine ⟨?_, ?_, ?_⟩
  · intro e
    cases e with
    | syntaxError c => exact Or.inl ⟨c, rfl⟩
    | pointerOutOfBounds c => exact Or.inr (Or.inl ⟨c, rfl⟩)
    | ioError => exact Or.inr (Or.inr rfl)
  · intro ptr h
    unfold moveLeftChecked
    rw [if_pos h]
  · intro len ptr hlen h
    unfold moveRightChecked
    rw [if_neg (by omega)]

theorem c9_taxonomy_witness :
    moveLeftChecked 0 = .error (SpecError.pointerOutOfBounds '<') ∧
    moveRightChecked 30000 29999 = .error (SpecError.pointerOutOfBounds '>') :=
  ⟨c9_taxonomy.2.1 0 rfl, c9_taxonomy.2.2 30000 29999 (by decide) rfl⟩

/-- C6: for every source on which compilation succeeds, every branch target
present in any produced basic block is a valid index into the produced block
sequence. -/
theorem c6_targets_valid : ∀ (s : String) (blocks : List BasicBlock),
    into_basic_blocks s = .ok blocks → ∀ bb ∈ blocks,
      (∀ t ∈ bb.jz, t < blocks.length) ∧ (∀ t ∈ bb.jnz, t < blocks.length) :=
  fun s blocks h => into_targets_lt s blocks h

theorem c6_targets_valid_witness :
    (∀ t ∈ ({ instrs := [], jz := some 2, jnz := some 1 } : BasicBlock).jz, t < 3) ∧
    (∀ t ∈ ({ instrs := [], jz := some 2, jnz := some 1 } : BasicBlock).jnz, t < 3) :=
  c6_targets_valid "[]"
    [{ instrs := [], jz := some 2, jnz := some 1 },
     { instrs := [], jz := some 2, jnz := some 1 },
     { instrs := [], jz := none, jnz := none }] rfl
    { instrs := [], jz := some 2, jnz := some 1 } (by simp)

/-- C7: whenever run returns an error, the error is a SyntaxError produced
by compilation alone: the very same error is returned for every input
source and fuel, before any machine state exists, so no output is written
and no input consumed. -/
theorem c7_syntax_before_execution : ∀ (s : String) (input : List Nat) (fuel : Nat) (e : Error),
    run s input fuel = .error e →
    into_basic_blocks s = .error e ∧ (∃ c, e = Error.syntaxError c) ∧
    ∀ (input2 : List Nat) (fuel2 : Nat), run s input2 fuel2 = .error e := by
  intro s input fuel e h
  have hcomp : into_basic_blocks s = .error e := by
    unfold run at h
    cases hc : into_basic_blocks s with
    | error e2 =>
        rw [hc] at h
        cases h
        rfl
    | ok bl =>
        rw [hc] at h
        cases h
  refine ⟨hcomp, ?_, ?_⟩
  · cases hscan : scanBrackets s.data 0 with
    | none =>
        have h2 := into_close_err s hscan
        rw [hcomp] at h2
        exact ⟨']', Except.error.inj h2⟩
    | some d =>
        cases d with
        | zero =>
            obtain ⟨bl, hbl⟩ := into_ok_of_scan s hscan
            rw [hcomp] at hbl
            cases hbl
        | succ d2 =>
            have h2 := into_open_err s d2 hscan
            rw [hcomp] at h2
            exact ⟨'[', Except.error.inj h2⟩
  · intro input2 fuel2
    unfold run
    rw [hcomp]

theorem c7_syntax_before_execution_witness :
    into_basic_blocks "]" = .error (Error.syntaxError ']') :=
  (c7_syntax_before_execution "]" [] 5 (Error.syntaxError ']') rfl).1

/-- C10: every single instruction preserves cursor and tape in-boundedness,
and on a successfully compiled program every reachable configuration of the
execution loop has an in-bounds block index and an in-bounds cursor on a
full-length tape, so every tape access and block fetch is in bounds. -/
theorem c10_inbounds :
    (∀ (st : MachState) (c : Cmd), st.ptr < MEMORY_SIZE → st.memory.length = MEMORY_SIZE →
      (execCmd st c).ptr < MEMORY_SIZE ∧ (execCmd st c).memory.length = MEMORY_SIZE) ∧
    (∀ (s : String) (blocks : List BasicBlock) (bb_no : Nat) (st : MachState),
      into_basic_blocks s = .ok blocks → Reaches blocks bb_no st →
      bb_no < blocks.length ∧ st.ptr < MEMORY_SIZE ∧ st.memory.length = MEMORY_SIZE) :=
  ⟨execCmd_ptrOk, fun s blocks bb_no st hc hr => reaches_inv s blocks hc bb_no st hr⟩

theorem c10_inbounds_witness :
    ((execCmd { memory := List.replicate MEMORY_SIZE 0, ptr := 0, input := [], output := [] }
        Cmd.right).ptr < MEMORY_SIZE ∧
      (execCmd { memory := List.replicate MEMORY_SIZE 0, ptr := 0, input := [], output := [] }
        Cmd.right).memory.length = MEMORY_SIZE) ∧
    (0 < ([{ instrs := [], jz := none, jnz := none }] : List BasicBlock).length ∧
      ({ memory := List.replicate MEMORY_SIZE 0, ptr := 0, input := ([] : List Nat),
          output := [] } : MachState).ptr < MEMORY_SIZE ∧
      ({ memory := List.replicate MEMORY_SIZE 0, ptr := 0, input := ([] : List Nat),
          output := [] } : MachState).memory.length = MEMORY_SIZE) :=
  ⟨c10_inbounds.1 _ Cmd.right MEMORY_SIZE_pos (by simp),
    c10_inbounds.2 "" [{ instrs := [], jz := none, jnz := none }] 0 _ rfl (Reaches.init [])⟩


/-!
## Claim C5: 8-bit wrapping cell arithmetic -/

theorem execCmd_inc_eq (st : MachState) : execCmd st Cmd.inc
    = { st with memory := st.memory.set st.ptr ((st.memory.getD st.ptr 0 + 1) % 256) } := rfl

theorem execCmd_dec_eq (st : MachState) : execCmd st Cmd.dec
    = { st with memory := st.memory.set st.ptr ((st.memory.getD st.ptr 0 + 255) % 256) } := rfl

theorem execCmd_inc_set (st : MachState) (M : List Nat) :
    execCmd { st with memory := M } Cmd.inc
      = { st with memory := M.set st.ptr ((M.getD st.ptr 0 + 1) % 256) } := rfl

theorem execCmd_dec_set (st : MachState) (M : List Nat) :
    execCmd { st with memory := M } Cmd.dec
      = { st with memory := M.set st.ptr ((M.getD st.ptr 0 + 255) % 256) } := rfl

theorem iterate_inc : ∀ (n : Nat) (st : MachState), st.ptr < st.memory.length →
    (fun s => execCmd s Cmd.inc)^[n + 1] st
      = { st with memory := st.memory.set st.ptr ((st.memory.getD st.ptr 0 + (n + 1)) % 256) }
  | 0, st, _ => by
      rw [Function.iterate_succ_apply', Function.iterate_zero_apply]
      exact execCmd_inc_eq st
  | n+1, st, hp => by
      rw [Function.iterate_succ_apply', iterate_inc n st hp, execCmd_inc_set,
        getD_set_self _ _ _ hp, List.set_set,
        show ((st.memory.getD st.ptr 0 + (n + 1)) % 256 + 1) % 256
          = (st.memory.getD st.ptr 0 + (n + 1 + 1)) % 256 from by omega]

/-- C5: with byte cells, Increment then Decrement (and Decrement then
Increment) restore the machine state, 256 Increments restore the machine
state, incrementing a cell holding 255 yields 0, and decrementing a cell
holding 0 yields 255. -/
theorem c5_wrapping : ∀ st : MachState, st.ptr < st.memory.length →
    st.memory.getD st.ptr 0 < 256 →
    execCmd (execCmd st Cmd.inc) Cmd.dec = st ∧
    execCmd (execCmd st Cmd.dec) Cmd.inc = st ∧
    (fun s => execCmd s Cmd.inc)^[256] st = st ∧
    (st.memory.getD st.ptr 0 = 255 → (execCmd st Cmd.inc).memory.getD st.ptr 0 = 0) ∧
    (st.memory.getD st.ptr 0 = 0 → (execCmd st Cmd.dec).memory.getD st.ptr 0 = 255) := by
  intro st hp hv
  refine ⟨?_, ?_, ?_, ?_, ?_⟩
  · rw [execCmd_inc_eq, execCmd_dec_set, getD_set_self _ _ _ hp, List.set_set,
      show ((st.memory.getD st.ptr 0 + 1) % 256 + 255) % 256 = st.memory.getD st.ptr 0
        from by omega,
      set_getD_self _ _ hp]
  · rw [execCmd_dec_eq, execCmd_inc_set, getD_set_self _ _ _ hp, List.set_set,
      show ((st.memory.getD st.ptr 0 + 255) % 256 + 1) % 256 = st.memory.getD st.ptr 0
        from by omega,
      set_getD_self _ _ hp]
  · rw [show (256 : Nat) = 255 + 1 from rfl, iterate_inc 255 st hp,
      show (st.memory.getD st.ptr 0 + (255 + 1)) % 256 = st.memory.getD st.ptr 0
        from by omega,
      set_getD_self _ _ hp]
  · intro h255
    show (st.memory.set st.ptr ((st.memory.getD st.ptr 0 + 1) % 256)).getD st.ptr 0 = 0
    rw [getD_set_self _ _ _ hp, h255]
  · intro h0
    show (st.memory.set st.ptr ((st.memory.getD st.ptr 0 + 255) % 256)).getD st.ptr 0 = 255
    rw [getD_set_self _ _ _ hp, h0]

theorem c5_wrapping_witness :
    execCmd (execCmd { memory := [5], ptr := 0, input := [], output := [] } Cmd.inc) Cmd.dec
      = { memory := [5], ptr := 0, input := [], output := [] } ∧
    (execCmd { memory := [255], ptr := 0, input := [], output := [] } Cmd.inc).memory.getD 0 0
      = 0 ∧
    (execCmd { memory := [0], ptr := 0, input := [], output := [] } Cmd.dec).memory.getD 0 0
      = 255 :=
  ⟨(c5_wrapping { memory := [5], ptr := 0, input := [], output := [] }
      (by decide) (by decide)).1,
    (c5_wrapping { memory := [255], ptr := 0, input := [], output := [] }
      (by decide) (by decide)).2.2.2.1 rfl,
    (c5_wrapping { memory := [0], ptr := 0, input := [], output := [] }
      (by decide) (by decide)).2.2.2.2 rfl⟩


theorem c8_chunk0 : revRunN blocksC8 1000 0
    { c0 := 0, rest := 0, ptr := 0, input := [], output := [] }
    = .ok (2, { c0 := 0, rest := 1759863909135969185058839100778429010889880461866052882423711122781095333, ptr := 65528, input := [], output := [] }) := by decide!

theorem c8_chunk1 : revRunN blocksC8 1000 2
    { c0 := 0, rest := 1759863909135969185058839100778429010889880461866052882423711122781095333, ptr := 65528, input := [], output := [] }
    = .ok (2, { c0 := 0, rest := 35694280651779352091505586252144744084369454348916578196423505569656584244866865764170241249710235822974, ptr := 65516, input := [], output := [] }) := by decide!

theorem c8_chunk2 : revRunN blocksC8 1000 2
    { c0 := 0, rest := 35694280651779352091505586252144744084369454348916578196423505569656584244866865764170241249710235822974, ptr := 65516, input := [], output := [] }
    = .ok (2, { c0 := 0, rest := 43151737492506953293246522942757411885854276359559036894617817387722850163868163547154313238537468327593571734630816582041442144, ptr := 65506, input := [], output := [] }) := by decide!

theorem c8_chunk3 : revRunN blocksC8 1000 2
    { c0 := 0, rest := 43151737492506953293246522942757411885854276359559036894617817387722850163868163547154313238537468327593571734630816582041442144, ptr := 65506, input := [], output := [] }
    = .ok (4, { c0 := 0, rest := 203778318812204264356991801503392869944989880851708208655568834418349090470530379668494672305487046917456944176379490743469427065026224521840742205256, ptr := 65505, input := [], output := [] }) := by decide!

theorem c8_chunk4 : revRunN blocksC8 1000 4
    { c0 := 0, rest := 203778318812204264356991801503392869944989880851708208655568834418349090470530379668494672305487046917456944176379490743469427065026224521840742205256, ptr := 65505, input := [], output := [] }
    = .ok (2, { c0 := 0, rest := 14683775370701268160201665651519139244936271722650664027361479338133685706808360777820685297500156346452075054997147050577150527193071621084279199725703968206068741936, ptr := 65506, input := [], output := [] }) := by decide!

theorem c8_chunk5 : revRunN blocksC8 1000 2
    { c0 := 0, rest := 14683775370701268160201665651519139244936271722650664027361479338133685706808360777820685297500156346452075054997147050577150527193071621084279199725703968206068741936, ptr := 65506, input := [], output := [] }
    = .ok (4, { c0 := 0, rest := 1058077524606116768871272555539878140865300639721473390289322504973894279586856687665669417815128654339181056275746662906942475987423007842585952786920548392485907381759838466756930334, ptr := 65531, input := [], output := [] }) := by decide!

theorem c8_chunk6 : revRunN blocksC8 1000 4
    { c0 := 0, rest := 1058077524606116768871272555539878140865300639721473390289322504973894279586856687665669417815128654339181056275746662906942475987423007842585952786920548392485907381759838466756930334, ptr := 65531, input := [], output := [] }
    = .ok (2, { c0 := 0, rest := 297822346596575268297723508159028935972732756873157460638229078793235547067975589230211021633181276203861352652935494052508744136736579236668398807635233030862725721890588095095692137034767700811017, ptr := 65508, input := [], output := [] }) := by decide!

theorem c8_chunk7 : revRunN blocksC8 1000 2
    { c0 := 0, rest := 297822346596575268297723508159028935972732756873157460638229078793235547067975589230211021633181276203861352652935494052508744136736579236668398807635233030862725721890588095095692137034767700811017, ptr := 65508, input := [], output := [] }
    = .ok (4, { c0 := 0, rest := 83829538072183942869231079181085471350493356917924201345817062983149408792190900284298766129120024312881318367243847948902567957057723548446182190127632392191286410268456033768102158436454117955180837240063742208, ptr := 65531, input := [], output := [] }) := by decide!

theorem c8_chunk8 : revRunN blocksC8 1000 4
    { c0 := 0, rest := 83829538072183942869231079181085471350493356917924201345817062983149408792190900284298766129120024312881318367243847948902567957057723548446182190127632392191286410268456033768102158436454117955180837240063742208, ptr := 65531, input := [], output := [] }
    = .ok (2, { c0 := 0, rest := 92171551861457132011418379397413399837300714478399289919567105415806729583861694192752350807395491948491621899562423560616892886303237557344090593861494528247440726060084632073500819782997327161157935038429148250679712235264, ptr := 65450, input := [], output := [] }) := by decide!

theorem c8_chunk9 : revRunN blocksC8 1000 2
    { c0 := 0, rest := 92171551861457132011418379397413399837300714478399289919567105415806729583861694192752350807395491948491621899562423560616892886303237557344090593861494528247440726060084632073500819782997327161157935038429148250679712235264, ptr := 65450, input := [], output := [] }
    = .ok (4, { c0 := 0, rest := 25943985413588667917604036955824347907383680977253744937797050771125677043845062331078692062939881647419525441744955305534792819995948177167033131412809760291272908028265769688296691770988789814624726921477289093524326724414880965667532800, ptr := 65463, input := [], output := [] }) := by decide!

theorem c8_chunk10 : revRunN blocksC8 1000 4
    { c0 := 0, rest := 25943985413588667917604036955824347907383680977253744937797050771125677043845062331078692062939881647419525441744955305534792819995948177167033131412809760291272908028265769688296691770988789814624726921477289093524326724414880965667532800, ptr := 65463, input := [], output := [] }
    = .ok (4, { c0 := 0, rest := 28525713633091676851792322919490179902557448285933964854362336516801057601991584500366411818822133982857271412019218322395806512808972482623292653542905043625454196653518084841192140682159618617345539252934706623070180729582413848677080855755837743360, ptr := 65443, input := [], output := [] }) := by decide!

theorem c8_chunk11 : revRunN blocksC8 1000 4
    { c0 := 0, rest := 28525713633091676851792322919490179902557448285933964854362336516801057601991584500366411818822133982857271412019218322395806512808972482623292653542905043625454196653518084841192140682159618617345539252934706623070180729582413848677080855755837743360, ptr := 65443, input := [], output := [] }
    = .ok (2, { c0 := 0, rest := 122517007149190095448248265921522957276095681708520621162956890610490379996092022906287974771906318995781764241003755105781292954340051426563341728305842673181814694060935762413570152609122725694074143952196372063109170469009392096157241351886836777649638674944, ptr := 65480, input := [], output := [] }) := by decide!

theorem c8_chunk12 : revRunN blocksC8 1000 2
    { c0 := 0, rest := 122517007149190095448248265921522957276095681708520621162956890610490379996092022906287974771906318995781764241003755105781292954340051426563341728305842673181814694060935762413570152609122725694074143952196372063109170469009392096157241351886836777649638674944, ptr := 65480, input := [], output := [] }
    = .ok (4, { c0 := 0, rest := 134708873960849831126360259231143015427593266049259896943745364948455848091091928624381369447273139113632317278283107940486060484488592139029931696887735063123105646064115942062674117251626601970925190864741865221979519201195095497061126447574082367264598185488929851115008, ptr := 65481, input := [], output := [] }) := by decide!

theorem c8_chunk13 : revRunN blocksC8 1000 4
    { c0 := 0, rest := 134708873960849831126360259231143015427593266049259896943745364948455848091091928624381369447273139113632317278283107940486060484488592139029931696887735063123105646064115942062674117251626601970925190864741865221979519201195095497061126447574082367264598185488929851115008, ptr := 65481, input := [], output := [] }
    = .ok (2, { c0 := 0, rest := 578570208142836009054840156911841355960336533671398382377716694205202593251183862371284250007731728872309230478921679633625544124756418522216193982343569150823670315468215837151095212130837873784191490246728048616893718038129580788132133721210672666885728563625382758237876100923392, ptr := 65508, input := [], output := [] }) := by decide!

theorem c8_chunk14 : revRunN blocksC8 1000 2
    { c0 := 0, rest := 578570208142836009054840156911841355960336533671398382377716694205202593251183862371284250007731728872309230478921679633625544124756418522216193982343569150823670315468215837151095212130837873784191490246728048616893718038129580788132133721210672666885728563625382758237876100923392, ptr := 65508, input := [], output := [] }
    = .ok (2, { c0 := 0, rest := 2484940122413393555581698344443866978989940085272658862899595920764577851068225002167630863303095522648037214577806456077407769704132715389643029364948063537804802641061032914221808311229077329533401812292041816200664972861045049438152774430449545069286189301523753538042319086639400815820800, ptr := 65456, input := [], output := [] }) := by decide!

theorem c8_chunk15 : revRunN blocksC8 1000 2
    { c0 := 0, rest := 2484940122413393555581698344443866978989940085272658862899595920764577851068225002167630863303095522648037214577806456077407769704132715389643029364948063537804802641061032914221808311229077329533401812292041816200664972861045049438152774430449545069286189301523753538042319086639400815820800, ptr := 65456, input := [], output := [] }
    = .ok (2, { c0 := 0, rest := 10672736558283761913600552645523751982536111779245521059118312211196724356648938261792741232167414694474522970320975939893771631356406981813155588990634766421596836660439837782907720387086237686958760094720035792371937292284187389574056070914347363698477143441321560424043443666186503771375887257042944, ptr := 65436, input := [], output := [] }) := by decide!

theorem c8_chunk16 : revRunN blocksC8 1000 2
    { c0 := 0, rest := 10672736558283761913600552645523751982536111779245521059118312211196724356648938261792741232167414694474522970320975939893771631356406981813155588990634766421596836660439837782907720387086237686958760094720035792371937292284187389574056070914347363698477143441321560424043443666186503771375887257042944, ptr := 65436, input := [], output := [] }
    = .ok (2, { c0 := 0, rest := 45839054476652355306764751220050795556207763230859884503392433542246084833865370447149423156627896516908704278993859845818877933638816835303816647606809926167862506789247430148204983731422395043503770501785070699956918901407945430077387330071042289384410341149016158031973020219943785480359894725648701461757952, ptr := 65448, input := [], output := [] }) := by decide!

theorem c8_chunk17 : revRunN blocksC8 1000 2
    { c0 := 0, rest := 45839054476652355306764751220050795556207763230859884503392433542246084833865370447149423156627896516908704278993859845818877933638816835303816647606809926167862506789247430148204983731422395043503770501785070699956918901407945430077387330071042289384410341149016158031973020219943785480359894725648701461757952, ptr := 65448, input := [], output := [] }
    = .ok (2, { c0 := 0, rest := 196877239856784261603926654055694266372694472857854501900407703117800368745493359337431668882981901181400733178285864719652524454281452324672642791945431922376562508042949978566744050975584712550302426846034619386182959989644164754903422333637975270104671066119287845815995209118916365068830544194423809416900546662301696, ptr := 65516, input := [], output := [] }) := by decide!

theorem c8_chunk18 : revRunN blocksC8 1000 2
    { c0 := 0, rest := 196877239856784261603926654055694266372694472857854501900407703117800368745493359337431668882981901181400733178285864719652524454281452324672642791945431922376562508042949978566744050975584712550302426846034619386182959989644164754903422333637975270104671066119287845815995209118916365068830544194423809416900546662301696, ptr := 65516, input := [], output := [] }
    = .ok (4, { c0 := 0, rest := 845581306511636127316373484351912636645435308324444742388620933957429819218634525739445253181271625621246164096422900524270138540697243787861935722558506682392071593704247550667452625154059627783294430836325839694652519014498031683934875724951072333306683061457939899445053360579643465945111633224868847585523055250141633921613824, ptr := 65435, input := [], output := [] }) := by decide!

theorem c8_chunk19 : revRunN blocksC8 1000 4
    { c0 := 0, rest := 845581306511636127316373484351912636645435308324444742388620933957429819218634525739445253181271625621246164096422900524270138540697243787861935722558506682392071593704247550667452625154059627783294430836325839694652519014498031683934875724951072333306683061457939899445053360579643465945111633224868847585523055250141633921613824, ptr := 65435, input := [], output := [] }
    = .ok (4, { c0 := 0, rest := 14186500224907925821390298283644658318129983581785807523118249351125534881871982663388232620487454086444423419829743854246748294993323343082039326966265620381017513764435854822923636765394827223339111391072530339735183838515530019155724859325250453446434498400083476659767699267936146983934063458862685635749077693663497120685774075199488, ptr := 65523, input := [], output := [] }) := by decide!

theorem c8_chunk20 : revRunN blocksC8 1000 4
    { c0 := 0, rest := 14186500224907925821390298283644658318129983581785807523118249351125534881871982663388232620487454086444423419829743854246748294993323343082039326966265620381017513764435854822923636765394827223339111391072530339735183838515530019155724859325250453446434498400083476659767699267936146983934063458862685635749077693663497120685774075199488, ptr := 65523, input := [], output := [] }
    = .ok (2, { c0 := 0, rest := 238009978557328851617442454609135699849463450628074158549779862905692941828700737491919670532164042498360763709942295867370213442734704284729479509007663026506333128208913454508831605518570341608640513056036492273252633255920110155746480441148437341000991524968507526055659206893109712339190917445902212771281503239688379139912291864781730676736, ptr := 65476, input := [], output := [] }) := by decide!

theorem c8_chunk21 : revRunN blocksC8 1000 2
    { c0 := 0, rest := 238009978557328851617442454609135699849463450628074158549779862905692941828700737491919670532164042498360763709942295867370213442734704284729479509007663026506333128208913454508831605518570341608640513056036492273252633255920110155746480441148437341000991524968507526055659206893109712339190917445902212771281503239688379139912291864781730676736, ptr := 65476, input := [], output := [] }
    = .ok (2, { c0 := 0, rest := 3993144820411674526617781428547665209685615795292535822007903512419198114735547272261234567166951088428178178686663245302777422894500873150055701364940494923297294903735076641861420214867432065810934642389704469919623126090429977867181142386670739481481437529121348260042526342990280397434746010540475103180989200211977573212845868645840392756300546048, ptr := 65442, input := [], output := [] }) := by decide!

theorem c8_chunk22 : revRunN blocksC8 1000 2
    { c0 := 0, rest := 3993144820411674526617781428547665209685615795292535822007903512419198114735547272261234567166951088428178178686663245302777422894500873150055701364940494923297294903735076641861420214867432065810934642389704469919623126090429977867181142386670739481481437529121348260042526342990280397434746010540475103180989200211977573212845868645840392756300546048, ptr := 65442, input := [], output := [] }
    = .ok (2, { c0 := 0, rest := 66993853171327872454764268467532745518580868290634656673564150935015569317711059464937540760026446471994645790312745585705682223830474667271395882176864747258254415485606837413475535812315461287411596056160496850029364176303373549945035437726932965291610461910009474452355077091321815668172546402280276597727091641197366587022304200939105849507746603343872000, ptr := 65444, input := [], output := [] }) := by decide!

theorem c8_chunk23 : revRunN blocksC8 1000 2
    { c0 := 0, rest := 66993853171327872454764268467532745518580868290634656673564150935015569317711059464937540760026446471994645790312745585705682223830474667271395882176864747258254415485606837413475535812315461287411596056160496850029364176303373549945035437726932965291610461910009474452355077091321815668172546402280276597727091641197366587022304200939105849507746603343872000, ptr := 65444, input := [], output := [] }
    = .ok (2, { c0 := 0, rest := 1123970345327652722994030361161785858638263240779528412098227250093358169806211070232101547839767858173092123267567640244430743096564220875340432236972539994686007394967639776789942853761445246072409798067989846086407027923115145902470145526285997829673005028653626989780073423454369820630069537504079998041129869476350420551792342543439686880149253950958388931919872, ptr := 65482, input := [], output := [] }) := by decide!

theorem c8_chunk24 : revRunN blocksC8 1000 2
    { c0 := 0, rest := 1123970345327652722994030361161785858638263240779528412098227250093358169806211070232101547839767858173092123267567640244430743096564220875340432236972539994686007394967639776789942853761445246072409798067989846086407027923115145902470145526285997829673005028653626989780073423454369820630069537504079998041129869476350420551792342543439686880149253950958388931919872, ptr := 65482, input := [], output := [] }
    = .ok (4, { c0 := 0, rest := 18857093261156620506659014079769292296119608255418156547908971791902290180203481266875137802042118746427331939958608094991107373971566791497295505173051489559485998242969405545396657885212179365529970822703048333598405371384134195677256565048784211302369359403628966868962258965677512391993180020947581201280864814505157300606375806499180144248139777190604321063218542542848, ptr := 65513, input := [], output := [] }) := by decide!

theorem c8_chunk25 : revRunN blocksC8 1000 4
    { c0 := 0, rest := 18857093261156620506659014079769292296119608255418156547908971791902290180203481266875137802042118746427331939958608094991107373971566791497295505173051489559485998242969405545396657885212179365529970822703048333598405371384134195677256565048784211302369359403628966868962258965677512391993180020947581201280864814505157300606375806499180144248139777190604321063218542542848, ptr := 65513, input := [], output := [] }
    = .ok (4, { c0 := 0, rest := 316369526774569032070247717563330647019134629536533582726083168090651773247952729166317831934625867306460576260384599069014326492313753919377090106117402219461241441497918198226717535018307939046239274966186994051545120307588385388159211560342087539136432878931679067458050109376391631970579981144877695351832082338943127044431602222493908487802753837943111473981163497654573662208, ptr := 65463, input := [], output := [] }) := by decide!

theorem c8_chunk26 : revRunN blocksC8 1000 4
    { c0 := 0, rest := 316369526774569032070247717563330647019134629536533582726083168090651773247952729166317831934625867306460576260384599069014326492313753919377090106117402219461241441497918198226717535018307939046239274966186994051545120307588385388159211560342087539136432878931679067458050109376391631970579981144877695351832082338943127044431602222493908487802753837943111473981163497654573662208, ptr := 65463, input := [], output := [] }
    = .ok (2, { c0 := 0, rest := 20733593306698156085755754418230437283046007081306264877536586503988954611577830058643805433667640839796200325800565084586922777514753137162769944375111613402619407630170271889743486248449529982477028810089780959142631877924424067851811603924415527652420030365179784319941684845768906763752596162891132732317184880349101163064618319627128618139677852053329056648921460059261676556058624, ptr := 65426, input := [], output := [] }) := by decide!

theorem c8_chunk27 : revRunN blocksC8 1000 2
    { c0 := 0, rest := 20733593306698156085755754418230437283046007081306264877536586503988954611577830058643805433667640839796200325800565084586922777514753137162769944375111613402619407630170271889743486248449529982477028810089780959142631877924424067851811603924415527652420030365179784319941684845768906763752596162891132732317184880349101163064618319627128618139677852053329056648921460059261676556058624, ptr := 65426, input := [], output := [] }
    = .ok (2, { c0 := 0, rest := 347851973362629211452438815117606384072115998740604768003644859680107553132637355705159790822615682579682248845226453346173076285428215924407404210539369489680344763083124713847551233621342044021954334149254036180520708480062496906634747337517656715874935547400581102874872647942085393238491213660435595712762860455940739358851407829107095798008451711608901439277000839243733063588687278505984, ptr := 65526, input := [], output := [] }) := by decide!

theorem c8_chunk28 : revRunN blocksC8 1000 2
    { c0 := 0, rest := 347851973362629211452438815117606384072115998740604768003644859680107553132637355705159790822615682579682248845226453346173076285428215924407404210539369489680344763083124713847551233621342044021954334149254036180520708480062496906634747337517656715874935547400581102874872647942085393238491213660435595712762860455940739358851407829107095798008451711608901439277000839243733063588687278505984, ptr := 65526, input := [], output := [] }
    = .ok (2, { c0 := 0, rest := 22796826926293268001747030187547451986550194093464274075886869523777348571708902745899625327799586207849510338868508859209703175786720718511321500680757977805815905036337321775893671047730787413394994250013931628804599757832340160827847841515546909219820825943381875277555065106526930319816409974361902292476105663595608717420239326640254857336984810655950142154984555525791438041064140130014265344, ptr := 65396, input := [], output := [] }) := by decide!

theorem c8_chunk29 : revRunN blocksC8 1000 2
    { c0 := 0, rest := 22796826926293268001747030187547451986550194093464274075886869523777348571708902745899625327799586207849510338868508859209703175786720718511321500680757977805815905036337321775893671047730787413394994250013931628804599757832340160827847841515546909219820825943381875277555065106526930319816409974361902292476105663595608717420239326640254857336984810655950142154984555525791438041064140130014265344, ptr := 65396, input := [], output := [] }
    = .ok (4, { c0 := 0, rest := 382467289457038236611198302815004112227981701147974314454354401567890166391618507003284561929557835227251756252667234005986081126816601280244789571716938362531146304370403526518935264790558650036246059821184529456982321964190282816024935739356520810812828723761498533950256538387501687295646538510059349171352139638189343861843662015890773333500242440436596537390604413316215483040554904707463061320040448, ptr := 65523, input := [], output := [] }) := by decide!

theorem c8_chunk30 : revRunN blocksC8 1000 4
    { c0 := 0, rest := 382467289457038236611198302815004112227981701147974314454354401567890166391618507003284561929557835227251756252667234005986081126816601280244789571716938362531146304370403526518935264790558650036246059821184529456982321964190282816024935739356520810812828723761498533950256538387501687295646538510059349171352139638189343861843662015890773333500242440436596537390604413316215483040554904707463061320040448, ptr := 65523, input := [], output := [] }
    = .error { c0 := 0, rest := 25065376281856457874551491973284109498973008766433644672080570061153249944641110474967257050615502289453171097774799847816303812727052781502122529372041272526841204203218765513944941513314051688775421776441149322492793452245174374631010188614468947857429543240433567920964012499763310578607491547795249507329288673196360178327184376429265024862061774744318913487274399382861804427170495340735649435257390759936, ptr := 65530, input := [], output := [98,114,97,105,110,102,117,99,107] } := by decide!

theorem c8_runN : revRunN blocksC8 31000 0
    { c0 := 0, rest := 0, ptr := 0, input := [], output := [] }
    = .error { c0 := 0, rest := 25065376281856457874551491973284109498973008766433644672080570061153249944641110474967257050615502289453171097774799847816303812727052781502122529372041272526841204203218765513944941513314051688775421776441149322492793452245174374631010188614468947857429543240433567920964012499763310578607491547795249507329288673196360178327184376429265024862061774744318913487274399382861804427170495340735649435257390759936, ptr := 65530, input := [], output := [98,114,97,105,110,102,117,99,107] } := by
  calc revRunN blocksC8 31000 0 { c0 := 0, rest := 0, ptr := 0, input := [], output := [] }
      = revRunN blocksC8 30000 2 { c0 := 0, rest := 1759863909135969185058839100778429010889880461866052882423711122781095333, ptr := 65528, input := [], output := [] } := by
        rw [show (31000 : Nat) = 1000 + 30000 from rfl, revRunN_add, c8_chunk0]
    _ = revRunN blocksC8 29000 2 { c0 := 0, rest := 35694280651779352091505586252144744084369454348916578196423505569656584244866865764170241249710235822974, ptr := 65516, input := [], output := [] } := by
        rw [show (30000 : Nat) = 1000 + 29000 from rfl, revRunN_add, c8_chunk1]
    _ = revRunN blocksC8 28000 2 { c0 := 0, rest := 43151737492506953293246522942757411885854276359559036894617817387722850163868163547154313238537468327593571734630816582041442144, ptr := 65506, input := [], output := [] } := by
        rw [show (29000 : Nat) = 1000 + 28000 from rfl, revRunN_add, c8_chunk2]
    _ = revRunN blocksC8 27000 4 { c0 := 0, rest := 203778318812204264356991801503392869944989880851708208655568834418349090470530379668494672305487046917456944176379490743469427065026224521840742205256, ptr := 65505, input := [], output := [] } := by
        rw [show (28000 : Nat) = 1000 + 27000 from rfl, revRunN_add, c8_chunk3]
    _ = revRunN blocksC8 26000 2 { c0 := 0, rest := 14683775370701268160201665651519139244936271722650664027361479338133685706808360777820685297500156346452075054997147050577150527193071621084279199725703968206068741936, ptr := 65506, input := [], output := [] } := by
        rw [show (27000 : Nat) = 1000 + 26000 from rfl, revRunN_add, c8_chunk4]
    _ = revRunN blocksC8 25000 4 { c0 := 0, rest := 1058077524606116768871272555539878140865300639721473390289322504973894279586856687665669417815128654339181056275746662906942475987423007842585952786920548392485907381759838466756930334, ptr := 65531, input := [], output := [] } := by
        rw [show (26000 : Nat) = 1000 + 25000 from rfl, revRunN_add, c8_chunk5]
    _ = revRunN blocksC8 24000 2 { c0 := 0, rest := 297822346596575268297723508159028935972732756873157460638229078793235547067975589230211021633181276203861352652935494052508744136736579236668398807635233030862725721890588095095692137034767700811017, ptr := 65508, input := [], output := [] } := by
        rw [show (25000 : Nat) = 1000 + 24000 from rfl, revRunN_add, c8_chunk6]
    _ = revRunN blocksC8 23000 4 { c0 := 0, rest := 83829538072183942869231079181085471350493356917924201345817062983149408792190900284298766129120024312881318367243847948902567957057723548446182190127632392191286410268456033768102158436454117955180837240063742208, ptr := 65531, input := [], output := [] } := by
        rw [show (24000 : Nat) = 1000 + 23000 from rfl, revRunN_add, c8_chunk7]
    _ = revRunN blocksC8 22000 2 { c0 := 0, rest := 92171551861457132011418379397413399837300714478399289919567105415806729583861694192752350807395491948491621899562423560616892886303237557344090593861494528247440726060084632073500819782997327161157935038429148250679712235264, ptr := 65450, input := [], output := [] } := by
        rw [show (23000 : Nat) = 1000 + 22000 from rfl, revRunN_add, c8_chunk8]
    _ = revRunN blocksC8 21000 4 { c0 := 0, rest := 25943985413588667917604036955824347907383680977253744937797050771125677043845062331078692062939881647419525441744955305534792819995948177167033131412809760291272908028265769688296691770988789814624726921477289093524326724414880965667532800, ptr := 65463, input := [], output := [] } := by
        rw [show (22000 : Nat) = 1000 + 21000 from rfl, revRunN_add, c8_chunk9]
    _ = revRunN blocksC8 20000 4 { c0 := 0, rest := 28525713633091676851792322919490179902557448285933964854362336516801057601991584500366411818822133982857271412019218322395806512808972482623292653542905043625454196653518084841192140682159618617345539252934706623070180729582413848677080855755837743360, ptr := 65443, input := [], output := [] } := by
        rw [show (21000 : Nat) = 1000 + 20000 from rfl, revRunN_add, c8_chunk10]
    _ = revRunN blocksC8 19000 2 { c0 := 0, rest := 122517007149190095448248265921522957276095681708520621162956890610490379996092022906287974771906318995781764241003755105781292954340051426563341728305842673181814694060935762413570152609122725694074143952196372063109170469009392096157241351886836777649638674944, ptr := 65480, input := [], output := [] } := by
        rw [show (20000 : Nat) = 1000 + 19000 from rfl, revRunN_add, c8_chunk11]
    _ = revRunN blocksC8 18000 4 { c0 := 0, rest := 134708873960849831126360259231143015427593266049259896943745364948455848091091928624381369447273139113632317278283107940486060484488592139029931696887735063123105646064115942062674117251626601970925190864741865221979519201195095497061126447574082367264598185488929851115008, ptr := 65481, input := [], output := [] } := by
        rw [show (19000 : Nat) = 1000 + 18000 from rfl, revRunN_add, c8_chunk12]
    _ = revRunN blocksC8 17000 2 { c0 := 0, rest := 578570208142836009054840156911841355960336533671398382377716694205202593251183862371284250007731728872309230478921679633625544124756418522216193982343569150823670315468215837151095212130837873784191490246728048616893718038129580788132133721210672666885728563625382758237876100923392, ptr := 65508, input := [], output := [] } := by
        rw [show (18000 : Nat) = 1000 + 17000 from rfl, revRunN_add, c8_chunk13]
    _ = revRunN blocksC8 16000 2 { c0 := 0, rest := 2484940122413393555581698344443866978989940085272658862899595920764577851068225002167630863303095522648037214577806456077407769704132715389643029364948063537804802641061032914221808311229077329533401812292041816200664972861045049438152774430449545069286189301523753538042319086639400815820800, ptr := 65456, input := [], output := [] } := by
        rw [show (17000 : Nat) = 1000 + 16000 from rfl, revRunN_add, c8_chunk14]
    _ = revRunN blocksC8 15000 2 { c0 := 0, rest := 10672736558283761913600552645523751982536111779245521059118312211196724356648938261792741232167414694474522970320975939893771631356406981813155588990634766421596836660439837782907720387086237686958760094720035792371937292284187389574056070914347363698477143441321560424043443666186503771375887257042944, ptr := 65436, input := [], output := [] } := by
        rw [show (16000 : Nat) = 1000 + 15000 from rfl, revRunN_add, c8_chunk15]
    _ = revRunN blocksC8 14000 2 { c0 := 0, rest := 45839054476652355306764751220050795556207763230859884503392433542246084833865370447149423156627896516908704278993859845818877933638816835303816647606809926167862506789247430148204983731422395043503770501785070699956918901407945430077387330071042289384410341149016158031973020219943785480359894725648701461757952, ptr := 65448, input := [], output := [] } := by
        rw [show (15000 : Nat) = 1000 + 14000 from rfl, revRunN_add, c8_chunk16]
    _ = revRunN blocksC8 13000 2 { c0 := 0, rest := 196877239856784261603926654055694266372694472857854501900407703117800368745493359337431668882981901181400733178285864719652524454281452324672642791945431922376562508042949978566744050975584712550302426846034619386182959989644164754903422333637975270104671066119287845815995209118916365068830544194423809416900546662301696, ptr := 65516, input := [], output := [] } := by
        rw [show (14000 : Nat) = 1000 + 13000 from rfl, revRunN_add, c8_chunk17]
    _ = revRunN blocksC8 12000 4 { c0 := 0, rest := 845581306511636127316373484351912636645435308324444742388620933957429819218634525739445253181271625621246164096422900524270138540697243787861935722558506682392071593704247550667452625154059627783294430836325839694652519014498031683934875724951072333306683061457939899445053360579643465945111633224868847585523055250141633921613824, ptr := 65435, input := [], output := [] } := by
        rw [show (13000 : Nat) = 1000 + 12000 from rfl, revRunN_add, c8_chunk18]
    _ = revRunN blocksC8 11000 4 { c0 := 0, rest := 14186500224907925821390298283644658318129983581785807523118249351125534881871982663388232620487454086444423419829743854246748294993323343082039326966265620381017513764435854822923636765394827223339111391072530339735183838515530019155724859325250453446434498400083476659767699267936146983934063458862685635749077693663497120685774075199488, ptr := 65523, input := [], output := [] } := by
        rw [show (12000 : Nat) = 1000 + 11000 from rfl, revRunN_add, c8_chunk19]
    _ = revRunN blocksC8 10000 2 { c0 := 0, rest := 238009978557328851617442454609135699849463450628074158549779862905692941828700737491919670532164042498360763709942295867370213442734704284729479509007663026506333128208913454508831605518570341608640513056036492273252633255920110155746480441148437341000991524968507526055659206893109712339190917445902212771281503239688379139912291864781730676736, ptr := 65476, input := [], output := [] } := by
        rw [show (11000 : Nat) = 1000 + 10000 from rfl, revRunN_add, c8_chunk20]
    _ = revRunN blocksC8 9000 2 { c0 := 0, rest := 3993144820411674526617781428547665209685615795292535822007903512419198114735547272261234567166951088428178178686663245302777422894500873150055701364940494923297294903735076641861420214867432065810934642389704469919623126090429977867181142386670739481481437529121348260042526342990280397434746010540475103180989200211977573212845868645840392756300546048, ptr := 65442, input := [], output := [] } := by
        rw [show (10000 : Nat) = 1000 + 9000 from rfl, revRunN_add, c8_chunk21]
    _ = revRunN blocksC8 8000 2 { c0 := 0, rest := 66993853171327872454764268467532745518580868290634656673564150935015569317711059464937540760026446471994645790312745585705682223830474667271395882176864747258254415485606837413475535812315461287411596056160496850029364176303373549945035437726932965291610461910009474452355077091321815668172546402280276597727091641197366587022304200939105849507746603343872000, ptr := 65444, input := [], output := [] } := by
        rw [show (9000 : Nat) = 1000 + 8000 from rfl, revRunN_add, c8_chunk22]
    _ = revRunN blocksC8 7000 2 { c0 := 0, rest := 1123970345327652722994030361161785858638263240779528412098227250093358169806211070232101547839767858173092123267567640244430743096564220875340432236972539994686007394967639776789942853761445246072409798067989846086407027923115145902470145526285997829673005028653626989780073423454369820630069537504079998041129869476350420551792342543439686880149253950958388931919872, ptr := 65482, input := [], output := [] } := by
        rw [show (8000 : Nat) = 1000 + 7000 from rfl, revRunN_add, c8_chunk23]
    _ = revRunN blocksC8 6000 4 { c0 := 0, rest := 18857093261156620506659014079769292296119608255418156547908971791902290180203481266875137802042118746427331939958608094991107373971566791497295505173051489559485998242969405545396657885212179365529970822703048333598405371384134195677256565048784211302369359403628966868962258965677512391993180020947581201280864814505157300606375806499180144248139777190604321063218542542848, ptr := 65513, input := [], output := [] } := by
        rw [show (7000 : Nat) = 1000 + 6000 from rfl, revRunN_add, c8_chunk24]
    _ = revRunN blocksC8 5000 4 { c0 := 0, rest := 316369526774569032070247717563330647019134629536533582726083168090651773247952729166317831934625867306460576260384599069014326492313753919377090106117402219461241441497918198226717535018307939046239274966186994051545120307588385388159211560342087539136432878931679067458050109376391631970579981144877695351832082338943127044431602222493908487802753837943111473981163497654573662208, ptr := 65463, input := [], output := [] } := by
        rw [show (6000 : Nat) = 1000 + 5000 from rfl, revRunN_add, c8_chunk25]
    _ = revRunN blocksC8 4000 2 { c0 := 0, rest := 20733593306698156085755754418230437283046007081306264877536586503988954611577830058643805433667640839796200325800565084586922777514753137162769944375111613402619407630170271889743486248449529982477028810089780959142631877924424067851811603924415527652420030365179784319941684845768906763752596162891132732317184880349101163064618319627128618139677852053329056648921460059261676556058624, ptr := 65426, input := [], output := [] } := by
        rw [show (5000 : Nat) = 1000 + 4000 from rfl, revRunN_add, c8_chunk26]
    _ = revRunN blocksC8 3000 2 { c0 := 0, rest := 347851973362629211452438815117606384072115998740604768003644859680107553132637355705159790822615682579682248845226453346173076285428215924407404210539369489680344763083124713847551233621342044021954334149254036180520708480062496906634747337517656715874935547400581102874872647942085393238491213660435595712762860455940739358851407829107095798008451711608901439277000839243733063588687278505984, ptr := 65526, input := [], output := [] } := by
        rw [show (4000 : Nat) = 1000 + 3000 from rfl, revRunN_add, c8_chunk27]
    _ = revRunN blocksC8 2000 2 { c0 := 0, rest := 22796826926293268001747030187547451986550194093464274075886869523777348571708902745899625327799586207849510338868508859209703175786720718511321500680757977805815905036337321775893671047730787413394994250013931628804599757832340160827847841515546909219820825943381875277555065106526930319816409974361902292476105663595608717420239326640254857336984810655950142154984555525791438041064140130014265344, ptr := 65396, input := [], output := [] } := by
        rw [show (3000 : Nat) = 1000 + 2000 from rfl, revRunN_add, c8_chunk28]
    _ = revRunN blocksC8 1000 4 { c0 := 0, rest := 382467289457038236611198302815004112227981701147974314454354401567890166391618507003284561929557835227251756252667234005986081126816601280244789571716938362531146304370403526518935264790558650036246059821184529456982321964190282816024935739356520810812828723761498533950256538387501687295646538510059349171352139638189343861843662015890773333500242440436596537390604413316215483040554904707463061320040448, ptr := 65523, input := [], output := [] } := by
        rw [show (2000 : Nat) = 1000 + 1000 from rfl, revRunN_add, c8_chunk29]
    _ = .error { c0 := 0, rest := 25065376281856457874551491973284109498973008766433644672080570061153249944641110474967257050615502289453171097774799847816303812727052781502122529372041272526841204203218765513944941513314051688775421776441149322492793452245174374631010188614468947857429543240433567920964012499763310578607491547795249507329288673196360178327184376429265024862061774744318913487274399382861804427170495340735649435257390759936, ptr := 65530, input := [], output := [98,114,97,105,110,102,117,99,107] } := c8_chunk30

theorem c8_eval : (revRunLoop blocksC8 31000 0
    { c0 := 0, rest := 0, ptr := 0, input := [], output := [] }).map RevState.output
    = some brainfuckBytes := by
  rw [revRunLoop_eq_runN, c8_runN]
  rfl

/-- C8: running the source `+[[-<]-[->]<-]<.<<<<.>>>>-.<<-.<.>>.<<<+++.>>>---.<++.`
with an empty input source succeeds (the loop reaches a terminal branch
within 31000 block iterations, with no error) and writes exactly the bytes
of the word brainfuck to the output sink. -/
theorem c8_printer :
    (run progC8 [] 31000).map (fun r => r.map MachState.output)
      = Except.ok (some brainfuckBytes) := by
  have hrun := revRunLoop_rep blocksC8 31000 0
      { c0 := 0, rest := 0, ptr := 0, input := [], output := [] }
      { memory := List.replicate MEMORY_SIZE 0, ptr := 0, input := [], output := [] }
      (RepRev_init [] (by simp))
  have hrun2 : run progC8 [] 31000 = Except.ok (runLoop blocksC8 31000 0
      { memory := List.replicate MEMORY_SIZE 0, ptr := 0, input := [], output := [] }) := by
    unfold run
    rw [c8_blocks]
  rw [hrun2]
  show Except.ok ((runLoop blocksC8 31000 0
      { memory := List.replicate MEMORY_SIZE 0, ptr := 0, input := [], output := [] }).map
        MachState.output) = _
  rw [← hrun, c8_eval]

end Esobox
